import Mathlib

/-!
Verification of the dsktool partition-table codec and mutation engine.

The Go source is shallowly embedded: a raw disk (or any byte buffer) is a
`List Nat` of byte values, positioned reads and writes become `readAt` and
`writeAt` over that list, machine integers are `Nat` with explicit `% 2^w`
truncation where the Go code casts, and fallible operations return
`Except String`.  Go's `panic` on an out-of-range slice is modelled as an
error result (both mean the operation did not complete successfully).
-/

set_option maxRecDepth 40000

namespace Dsktool

/-- A disk image (or any byte buffer): a list of byte values. -/
abbrev Disk := List Nat

/-- `splice d off src` overwrites `d` with `src` starting at byte `off`.
This is the effect of Go's `copy(d[off:off+len(src)], src)` and of a
successful positioned write, when `off + len src ≤ len d`. -/
def splice (d : List Nat) (off : Nat) (src : List Nat) : List Nat :=
  d.take off ++ src ++ d.drop (off + src.length)

/-- `segment d off len` is the byte slice `d[off : off+len]` (clamped). -/
def segment (d : List Nat) (off len : Nat) : List Nat :=
  (d.drop off).take len

/-- `n ≤ d.length` computed tail-recursively; `lenAtLeast_iff` below
proves it equal to the `List.length` bound. -/
def lenAtLeast : List Nat → Nat → Bool
  | _, 0 => true
  | [], _ + 1 => false
  | _ :: t, n + 1 => lenAtLeast t n

/-- `file.ReadAt(buf, off)` with `len(buf) = len`: fails (short read)
unless the whole range is inside the file. -/
def readAt (d : Disk) (off len : Nat) : Option (List Nat) :=
  if lenAtLeast d (off + len) then some (segment d off len) else none

/-- `file.WriteAt(src, off)`: fails unless the whole range is inside the
device (a block device cannot be extended). -/
def writeAt (d : Disk) (off : Nat) (src : List Nat) : Option Disk :=
  if lenAtLeast d (off + src.length) then some (splice d off src) else none

/-- Little-endian value of a byte list (each element taken mod 256). -/
def leVal (b : List Nat) : Nat :=
  b.foldr (fun x acc => x % 256 + 256 * acc) 0

/-- `binary.LittleEndian.UintNN(b[off:off+n])`. -/
def getLE (b : List Nat) (off n : Nat) : Nat :=
  leVal (segment b off n)

/-- The `n` little-endian bytes of `v` (an n-byte LE store truncates). -/
def putLEbytes (v : Nat) : Nat → List Nat
  | 0 => []
  | n + 1 => v % 256 :: putLEbytes (v / 256) n

/-- `binary.LittleEndian.PutUint32(b[off:off+4], v)`. -/
def putLE32 (b : List Nat) (off v : Nat) : List Nat :=
  splice b off (putLEbytes v 4)

/-- A fixed-size Go byte array of length `n` holding `l`: `copy` truncates
a long source and the remainder of the array stays zero. -/
def fixBytes (n : Nat) (l : List Nat) : List Nat :=
  l.take n ++ List.replicate (n - l.length) 0

/-- isAllZero checks if a byte slice is all zeros (gpt_utils.go). -/
def isAllZero (b : List Nat) : Bool :=
  b.all (fun v => v == 0)

/-- 32-bit bitwise XOR, computed bit by bit (fuel = bit count).  This is
the semantics of Go's `^` on `uint32` operands, in a structural form the
kernel can evaluate. -/
def xorBits : Nat → Nat → Nat → Nat
  | 0, _, _ => 0
  | k + 1, a, b => (if a % 2 = b % 2 then 0 else 1) + 2 * xorBits k (a / 2) (b / 2)

/-- Go `uint32` XOR. -/
def xor32 (a b : Nat) : Nat := xorBits 32 a b

/-- `k` polynomial-division rounds of CRC-32 (IEEE polynomial
`0xEDB88320`, reflected form). -/
def crc32Bits : Nat → Nat → Nat
  | 0, c => c
  | k + 1, c => crc32Bits k (if c % 2 = 1 then xor32 (c / 2) 0xEDB88320 else c / 2)

/-- The 256-entry CRC-32 lookup table used by Go's `hash/crc32` for the
IEEE polynomial; `crc32Table_spec` below proves every entry against the
bitwise polynomial definition. -/
def crc32Table : List Nat := [0x0, 0x77073096, 0xee0e612c, 0x990951ba, 0x76dc419, 0x706af48f, 0xe963a535, 0x9e6495a3, 0xedb8832, 0x79dcb8a4, 0xe0d5e91e, 0x97d2d988, 0x9b64c2b, 0x7eb17cbd, 0xe7b82d07, 0x90bf1d91, 0x1db71064, 0x6ab020f2, 0xf3b97148, 0x84be41de, 0x1adad47d, 0x6ddde4eb, 0xf4d4b551, 0x83d385c7, 0x136c9856, 0x646ba8c0, 0xfd62f97a, 0x8a65c9ec, 0x14015c4f, 0x63066cd9, 0xfa0f3d63, 0x8d080df5, 0x3b6e20c8, 0x4c69105e, 0xd56041e4, 0xa2677172, 0x3c03e4d1, 0x4b04d447, 0xd20d85fd, 0xa50ab56b, 0x35b5a8fa, 0x42b2986c, 0xdbbbc9d6, 0xacbcf940, 0x32d86ce3, 0x45df5c75, 0xdcd60dcf, 0xabd13d59, 0x26d930ac, 0x51de003a, 0xc8d75180, 0xbfd06116, 0x21b4f4b5, 0x56b3c423, 0xcfba9599, 0xb8bda50f, 0x2802b89e, 0x5f058808, 0xc60cd9b2, 0xb10be924, 0x2f6f7c87, 0x58684c11, 0xc1611dab, 0xb6662d3d, 0x76dc4190, 0x1db7106, 0x98d220bc, 0xefd5102a, 0x71b18589, 0x6b6b51f, 0x9fbfe4a5, 0xe8b8d433, 0x7807c9a2, 0xf00f934, 0x9609a88e, 0xe10e9818, 0x7f6a0dbb, 0x86d3d2d, 0x91646c97, 0xe6635c01, 0x6b6b51f4, 0x1c6c6162, 0x856530d8, 0xf262004e, 0x6c0695ed, 0x1b01a57b, 0x8208f4c1, 0xf50fc457, 0x65b0d9c6, 0x12b7e950, 0x8bbeb8ea, 0xfcb9887c, 0x62dd1ddf, 0x15da2d49, 0x8cd37cf3, 0xfbd44c65, 0x4db26158, 0x3ab551ce, 0xa3bc0074, 0xd4bb30e2, 0x4adfa541, 0x3dd895d7, 0xa4d1c46d, 0xd3d6f4fb, 0x4369e96a, 0x346ed9fc, 0xad678846, 0xda60b8d0, 0x44042d73, 0x33031de5, 0xaa0a4c5f, 0xdd0d7cc9, 0x5005713c, 0x270241aa, 0xbe0b1010, 0xc90c2086, 0x5768b525, 0x206f85b3, 0xb966d409, 0xce61e49f, 0x5edef90e, 0x29d9c998, 0xb0d09822, 0xc7d7a8b4, 0x59b33d17, 0x2eb40d81, 0xb7bd5c3b, 0xc0ba6cad, 0xedb88320, 0x9abfb3b6, 0x3b6e20c, 0x74b1d29a, 0xead54739, 0x9dd277af, 0x4db2615, 0x73dc1683, 0xe3630b12, 0x94643b84, 0xd6d6a3e, 0x7a6a5aa8, 0xe40ecf0b, 0x9309ff9d, 0xa00ae27, 0x7d079eb1, 0xf00f9344, 0x8708a3d2, 0x1e01f268, 0x6906c2fe, 0xf762575d, 0x806567cb, 0x196c3671, 0x6e6b06e7, 0xfed41b76, 0x89d32be0, 0x10da7a5a, 0x67dd4acc, 0xf9b9df6f, 0x8ebeeff9, 0x17b7be43, 0x60b08ed5, 0xd6d6a3e8, 0xa1d1937e, 0x38d8c2c4, 0x4fdff252, 0xd1bb67f1, 0xa6bc5767, 0x3fb506dd, 0x48b2364b, 0xd80d2bda, 0xaf0a1b4c, 0x36034af6, 0x41047a60, 0xdf60efc3, 0xa867df55, 0x316e8eef, 0x4669be79, 0xcb61b38c, 0xbc66831a, 0x256fd2a0, 0x5268e236, 0xcc0c7795, 0xbb0b4703, 0x220216b9, 0x5505262f, 0xc5ba3bbe, 0xb2bd0b28, 0x2bb45a92, 0x5cb36a04, 0xc2d7ffa7, 0xb5d0cf31, 0x2cd99e8b, 0x5bdeae1d, 0x9b64c2b0, 0xec63f226, 0x756aa39c, 0x26d930a, 0x9c0906a9, 0xeb0e363f, 0x72076785, 0x5005713, 0x95bf4a82, 0xe2b87a14, 0x7bb12bae, 0xcb61b38, 0x92d28e9b, 0xe5d5be0d, 0x7cdcefb7, 0xbdbdf21, 0x86d3d2d4, 0xf1d4e242, 0x68ddb3f8, 0x1fda836e, 0x81be16cd, 0xf6b9265b, 0x6fb077e1, 0x18b74777, 0x88085ae6, 0xff0f6a70, 0x66063bca, 0x11010b5c, 0x8f659eff, 0xf862ae69, 0x616bffd3, 0x166ccf45, 0xa00ae278, 0xd70dd2ee, 0x4e048354, 0x3903b3c2, 0xa7672661, 0xd06016f7, 0x4969474d, 0x3e6e77db, 0xaed16a4a, 0xd9d65adc, 0x40df0b66, 0x37d83bf0, 0xa9bcae53, 0xdebb9ec5, 0x47b2cf7f, 0x30b5ffe9, 0xbdbdf21c, 0xcabac28a, 0x53b39330, 0x24b4a3a6, 0xbad03605, 0xcdd70693, 0x54de5729, 0x23d967bf, 0xb3667a2e, 0xc4614ab8, 0x5d681b02, 0x2a6f2b94, 0xb40bbe37, 0xc30c8ea1, 0x5a05df1b, 0x2d02ef8d]

/-- Fold one byte into a CRC-32 accumulator (table-driven, exactly Go's
`update` step: `crc = tab[byte(crc)^b] ^ (crc >> 8)`). -/
def crc32Byte (c b : Nat) : Nat := xor32 (c / 256) (crc32Table.getD (xorBits 8 c (b % 256)) 0)

/-- Fold a byte list into a CRC-32 accumulator.  The branch on the
intermediate value is the identity (both branches continue with the same
number); it only forces the accumulator so that kernel reduction of
concrete checksums stays shallow.  `crcFold_cons` restates the plain
recurrence. -/
def crcFold : Nat → List Nat → Nat
  | c, [] => c
  | c, b :: l =>
    if crc32Byte c b = 0 then crcFold 0 l else crcFold (crc32Byte c b) l

/-- `crc32.ChecksumIEEE` from Go's `hash/crc32`: table-driven reflected
CRC-32 with initial value and final XOR `0xFFFFFFFF`. -/
def crc32ChecksumIEEE (data : List Nat) : Nat :=
  xor32 (crcFold 0xFFFFFFFF data) 0xFFFFFFFF

/-- The 8 signature bytes `"EFI PART"`. -/
def efiSignature : List Nat := [0x45, 0x46, 0x49, 0x20, 0x50, 0x41, 0x52, 0x54]

/-- gptHeader (structs_linux.go): the fixed 92-byte GPT header layout.
Byte arrays are kept as byte lists; integer fields are `Nat`. -/
structure gptHeader where
  Signature : List Nat
  Revision : List Nat
  HeaderSize : Nat
  CRC32 : Nat
  CurrentLBA : Nat
  BackupLBA : Nat
  FirstUsableLBA : Nat
  LastUsableLBA : Nat
  DiskGUID : List Nat
  PartitionEntryLBA : Nat
  NumPartEntries : Nat
  PartEntrySize : Nat
  PartEntryArrayCRC32 : Nat
deriving DecidableEq

/-- gptPartition (structs_linux.go): one 128-byte GPT partition entry. -/
structure gptPartition where
  TypeGUID : List Nat
  UniqueGUID : List Nat
  FirstLBA : Nat
  LastLBA : Nat
  AttributeFlags : Nat
  PartitionName : List Nat
deriving DecidableEq

/-- `binary.Read(bytes.NewReader(b), binary.LittleEndian, &gptHeader{})`:
field offsets 0/8/12/16/(4 bytes reserved padding)/24/32/40/48/56/72/80/84/88. -/
def parseGptHeader (b : List Nat) : gptHeader where
  Signature := segment b 0 8
  Revision := segment b 8 4
  HeaderSize := getLE b 12 4
  CRC32 := getLE b 16 4
  CurrentLBA := getLE b 24 8
  BackupLBA := getLE b 32 8
  FirstUsableLBA := getLE b 40 8
  LastUsableLBA := getLE b 48 8
  DiskGUID := segment b 56 16
  PartitionEntryLBA := getLE b 72 8
  NumPartEntries := getLE b 80 4
  PartEntrySize := getLE b 84 4
  PartEntryArrayCRC32 := getLE b 88 4

/-- `binary.Read` of one `gptPartition` from a byte slice: succeeds only
when the slice holds the full 128-byte struct, exactly as Go's
`binary.Read` errors on a short reader (the callers `continue` on error). -/
def parseGptPartition (b : List Nat) : Option gptPartition :=
  if b.length < 128 then none
  else some
    { TypeGUID := segment b 0 16
      UniqueGUID := segment b 16 16
      FirstLBA := getLE b 32 8
      LastLBA := getLE b 40 8
      AttributeFlags := getLE b 48 8
      PartitionName := segment b 56 72 }

/-- `binary.Write` of one `gptPartition`: 128 little-endian bytes. -/
def encodeGptPartition (p : gptPartition) : List Nat :=
  fixBytes 16 p.TypeGUID ++ fixBytes 16 p.UniqueGUID ++
  putLEbytes p.FirstLBA 8 ++ putLEbytes p.LastLBA 8 ++
  putLEbytes p.AttributeFlags 8 ++ fixBytes 72 p.PartitionName

/-- PartitionInfo (tui_partitions_data.go): the unified partition record
handed between the reader, the TUI and the mutator (`Type` is a Lean
keyword, hence `Type'`). -/
structure PartitionInfo where
  Number : Int
  Name : String
  Type' : String
  FileSystem : String
  Size : String
  FirstLBA : Nat
  LastLBA : Nat
  TotalSectors : Nat
  SectorSize : Nat
  TypeGUID : String
  UniqueGUID : String
  Status : String
  MountPoint : String
  MountInfo : String
  Mounted : Bool
  Unused : Bool

instance : Inhabited PartitionInfo :=
  ⟨{ Number := 0, Name := "", Type' := "", FileSystem := "", Size := ""
     FirstLBA := 0, LastLBA := 0, TotalSectors := 0, SectorSize := 0
     TypeGUID := "", UniqueGUID := "", Status := "", MountPoint := ""
     MountInfo := "", Mounted := false, Unused := false }⟩

/-- FormField (tui_create_partition.go). -/
structure FormField where
  label : String
  value : String
  fieldType : String
  options : List String

instance : Inhabited FormField := ⟨{ label := "", value := "", fieldType := "", options := [] }⟩

/-- isGPTDiskSafe (tui_partitions.go): seek to byte 512, `binary.Read` a
`gptHeader` (92 bytes), return false on any error, else compare the
signature with `"EFI PART"`. -/
def isGPTDiskSafe (d : Disk) : Bool :=
  match readAt d 512 92 with
  | none => false
  | some b => (parseGptHeader b).Signature == efiSignature

/-- The hex value of one character as read by `fmt.Sscanf` with `%x`
(zero for a non-hex character, whose parse error Go ignores into the
zero byte value). -/
def hexVal (c : Char) : Nat :=
  if 48 ≤ c.toNat ∧ c.toNat ≤ 57 then c.toNat - 48
  else if 97 ≤ c.toNat ∧ c.toNat ≤ 102 then c.toNat - 87
  else if 65 ≤ c.toNat ∧ c.toNat ≤ 70 then c.toNat - 55
  else 0

/-- Successive two-hex-digit bytes of a character list (the `%02x` scan
loop inside parseGUID). -/
def hexPairs : List Char → List Nat
  | c1 :: c2 :: rest => (16 * hexVal c1 + hexVal c2) :: hexPairs rest
  | _ => []

/-- parseGUID (src/unnamed/part_003): strip dashes, parse 32 hex digits
into 16 bytes; on a malformed string fall back to the Linux Filesystem
GUID (the Go code recurses once on the default literal, which is valid,
so the fallback is inlined here). -/
def parseGUID (g : String) : List Nat :=
  let s := g.data.filter (fun c => c != Char.ofNat 45)
  if s.length != 32 then
    hexPairs ("0FC63DAF848347728E793D69D8477DE4".data)
  else
    hexPairs s

/-- getTypeGUIDFromName (src/unnamed/part_003): static name-to-GUID map,
defaulting to the Linux Filesystem GUID on unknown input. -/
def getTypeGUIDFromName (typeName : String) : List Nat :=
  if typeName = "Linux Filesystem" then parseGUID "0FC63DAF-8483-4772-8E79-3D69D8477DE4"
  else if typeName = "Linux Swap" then parseGUID "0657FD6D-A4AB-43C4-84E5-0933C84B4F4F"
  else if typeName = "EFI System" then parseGUID "C12A7328-F81F-11D2-BA4B-00A0C93EC93B"
  else if typeName = "Windows Basic Data" then parseGUID "EBD0A0A2-B9E5-4433-87C0-68B6B72699C7"
  else if typeName = "Microsoft Reserved" then parseGUID "E3C9E316-0B5C-4DB8-817D-F92DF00215AE"
  else parseGUID "0FC63DAF-8483-4772-8E79-3D69D8477DE4"

/-- getMBRTypeFromName (src/unnamed/part_003): static name-to-type-byte
map, defaulting to 0x83 (Linux) on unknown input. -/
def getMBRTypeFromName (typeName : String) : Nat :=
  if typeName = "Linux Filesystem" then 0x83
  else if typeName = "Linux Swap" then 0x82
  else if typeName = "EFI System" then 0xEF
  else if typeName = "Windows Basic Data" then 0x07
  else if typeName = "Microsoft Reserved" then 0x27
  else if typeName = "Extended Partition" then 0x05
  else 0x83

/-- generateGUID (src/unnamed/part_003): the source returns a fixed
placeholder byte sequence ("simplified GUID generation"). -/
def generateGUID : List Nat :=
  [0x00, 0x01, 0x02, 0x03, 0x04, 0x05, 0x06, 0x07, 0x08, 0x09, 0x0A, 0x0B, 0x0C, 0x0D, 0x0E, 0x0F]

/-- encodeUTF16LE (src/unnamed/part_003): two bytes per rune,
`byte(r & 0xFF)` then `byte(r >> 8)`. -/
def encodeUTF16LE (s : String) : List Nat :=
  s.data.foldr (fun r acc => r.toNat % 256 :: (r.toNat / 256) % 256 :: acc) []

/-- mbrPartition (structs_linux.go): status, type byte and the LE32
first-sector / sector-count pair; the two 3-byte CHS fields are blank
padding (`Type` is a Lean keyword, hence `Type'`). -/
structure mbrPartition where
  Status : Nat
  Type' : Nat
  FirstSector : Nat
  Sectors : Nat
deriving DecidableEq

/-- The zero-valued `mbrPartition{}`. -/
def mbrZero : mbrPartition := { Status := 0, Type' := 0, FirstSector := 0, Sectors := 0 }

instance : Inhabited mbrPartition := ⟨mbrZero⟩

/-- The slot scan of createGPTPartition for an explicitly requested
partition number (src/unnamed/part_003 lines 89-107): count the non-empty
entries in slot order and stop at the slot where the count reaches
`requested - 1` (as a `uint32`).  Arguments after the target: slot index,
remaining slots, running `partCount`. -/
def gptCreateScanReq (esize : Nat) (table : List Nat) (target : Nat) : Nat → Nat → Nat → Option Nat
  | _, 0, _ => none
  | i, n + 1, partCount =>
    match parseGptPartition (segment table (i * esize) esize) with
    | none => gptCreateScanReq esize table target (i + 1) n partCount
    | some p =>
      if !(isAllZero p.TypeGUID) && p.FirstLBA != 0 then
        if partCount + 1 = target then some i
        else gptCreateScanReq esize table target (i + 1) n (partCount + 1)
      else gptCreateScanReq esize table target (i + 1) n partCount

/-- The first-truly-empty-slot scan of createGPTPartition
(src/unnamed/part_003 lines 109-139): the first slot whose entry parses
and has an all-zero type GUID or a zero first LBA. -/
def gptCreateScanEmpty (esize : Nat) (table : List Nat) : Nat → Nat → Option Nat
  | _, 0 => none
  | i, n + 1 =>
    match parseGptPartition (segment table (i * esize) esize) with
    | none => gptCreateScanEmpty esize table (i + 1) n
    | some p =>
      if isAllZero p.TypeGUID || p.FirstLBA == 0 then some i
      else gptCreateScanEmpty esize table (i + 1) n

/-- Slot selection of createGPTPartition (src/unnamed/part_003 lines
84-143): with a positive requested number, first the counting scan, then
the first-empty fallback; otherwise the first-empty scan alone.  `none`
is the `^uint32(0)` no-slot sentinel. -/
def findGPTSlot (esize num : Nat) (table : List Nat) (requested : Int) : Option Nat :=
  if requested > 0 then
    match gptCreateScanReq esize table ((requested - 1).toNat % 2 ^ 32) 0 num 0 with
    | some i => some i
    | none => gptCreateScanEmpty esize table 0 num
  else gptCreateScanEmpty esize table 0 num

/-- The entry-search loop of deleteGPTPartition (partition_delete.go
lines 68-83): skip unparseable and empty entries, count the rest, stop
at the slot where the count reaches `target`.  Arguments: slot index,
remaining slots, running `partID`. -/
def gptDeleteScan (esize : Nat) (table : List Nat) (target : Int) : Nat → Nat → Int → Option Nat
  | _, 0, _ => none
  | i, n + 1, partID =>
    match parseGptPartition (segment table (i * esize) esize) with
    | none => gptDeleteScan esize table target (i + 1) n partID
    | some p =>
      if isAllZero p.TypeGUID || p.FirstLBA == 0 then
        gptDeleteScan esize table target (i + 1) n partID
      else if partID + 1 = target then some i
      else gptDeleteScan esize table target (i + 1) n (partID + 1)

/-- The entry-selection loop of getGPTPartitionsData
(tui_partitions_direct.go lines 156-232): scan all slots, skip
unparseable entries and entries with an all-zero type GUID or zero first
LBA, and emit the remaining `(slot, entry)` pairs in slot order (the
reader numbers them 1..k in this order). -/
def gptScan (esize : Nat) (table : List Nat) : Nat → Nat → List (Nat × gptPartition)
  | _, 0 => []
  | i, n + 1 =>
    match parseGptPartition (segment table (i * esize) esize) with
    | none => gptScan esize table (i + 1) n
    | some p =>
      if isAllZero p.TypeGUID || p.FirstLBA == 0 then gptScan esize table (i + 1) n
      else (i, p) :: gptScan esize table (i + 1) n

/-- The logical GPT partition list of the reader: slots 0..num-1 in order. -/
def gptReaderList (esize num : Nat) (table : List Nat) : List (Nat × gptPartition) :=
  gptScan esize table 0 num

/-- The header bytes with the new entry-array CRC stored at offset 88 and
the header's own CRC field (bytes 16-19) zeroed, ready for checksumming. -/
def gptHeaderPatched (hb : List Nat) (crcE : Nat) : List Nat :=
  splice (putLE32 hb 88 crcE) 16 (List.replicate 4 0)

/-- The final 512-byte header buffer: checksum the patched bytes over
`hs` bytes and store the result at offset 16. -/
def gptHeaderFinal (hb : List Nat) (hs crcE : Nat) : List Nat :=
  putLE32 (gptHeaderPatched hb crcE) 16 (crc32ChecksumIEEE ((gptHeaderPatched hb crcE).take hs))

/-- The common write tail of createGPTPartition (src/unnamed/part_003
lines 179-252) and deleteGPTPartition (partition_delete.go lines 88-167);
the spec's `write_table`.  Re-reads the primary header bytes, patches the
two CRC fields, writes entry array and header to the primary locations,
then re-reads the backup header from the (already primarily-written)
disk, patches its CRC fields the same way, and writes entry array and
header to the backup locations.  `header.HeaderSize > 512` makes Go panic
on `headerBytes[:HeaderSize]`; the panic is modelled as an error. -/
def writeGPTTable (d : Disk) (header : gptHeader) (table1 : List Nat) : Except String Disk :=
  match readAt d 512 512 with
  | none => .error "error reading header for CRC"
  | some hb0 =>
    if header.HeaderSize > 512 then .error "header slice out of range"
    else
      match writeAt d (header.PartitionEntryLBA * 512) table1 with
      | none => .error "error writing GPT entries"
      | some d1 =>
        match writeAt d1 512 ((gptHeaderFinal hb0 header.HeaderSize (crc32ChecksumIEEE table1)).take header.HeaderSize) with
        | none => .error "error writing GPT header"
        | some d2 =>
          match readAt d2 (header.BackupLBA * 512) 512 with
          | none => .error "error reading backup GPT header"
          | some bb0 =>
            if (parseGptHeader bb0).HeaderSize > 512 then .error "backup header slice out of range"
            else
              match writeAt d2 ((parseGptHeader bb0).PartitionEntryLBA * 512) table1 with
              | none => .error "error writing backup GPT entries"
              | some d3 =>
                match writeAt d3 (header.BackupLBA * 512) ((gptHeaderFinal bb0 (parseGptHeader bb0).HeaderSize (crc32ChecksumIEEE table1)).take (parseGptHeader bb0).HeaderSize) with
                | none => .error "error writing backup GPT header"
                | some d4 => .ok d4

/-- The new entry built by createGPTPartition (src/unnamed/part_003 lines
146-168): type GUID from the form's type field (index 5), unique GUID
from generateGUID, LBA range from the parsed preview, flags zero, name
UTF-16LE encoded from the form's name field (index 2) into the 72-byte
array.  The TUI always passes six fields; out-of-range access (a Go
panic) yields the empty-string default here. -/
def gptNewPartition (preview : PartitionInfo) (fields : List FormField) : gptPartition where
  TypeGUID := fixBytes 16 (getTypeGUIDFromName (fields.getD 5 default).value)
  UniqueGUID := fixBytes 16 generateGUID
  FirstLBA := preview.FirstLBA
  LastLBA := preview.LastLBA
  AttributeFlags := 0
  PartitionName := fixBytes 72 (encodeUTF16LE (fields.getD 2 default).value)

/-- createGPTPartition (src/unnamed/part_003 lines 62-253): read header
and entry array, pick a slot, overwrite that slot with the new entry,
write everything back through the common write tail. -/
def createGPTPartition (d : Disk) (preview : PartitionInfo) (fields : List FormField) : Except String Disk :=
  match readAt d 512 512 with
  | none => .error "error reading GPT header"
  | some headerBytes =>
    match readAt d ((parseGptHeader headerBytes).PartitionEntryLBA * 512)
        ((parseGptHeader headerBytes).NumPartEntries * (parseGptHeader headerBytes).PartEntrySize) with
    | none => .error "error reading GPT entries"
    | some table =>
      match findGPTSlot (parseGptHeader headerBytes).PartEntrySize
          (parseGptHeader headerBytes).NumPartEntries table preview.Number with
      | none => .error "no free partition slot available"
      | some emptySlot =>
        writeGPTTable d (parseGptHeader headerBytes)
          (splice table (emptySlot * (parseGptHeader headerBytes).PartEntrySize)
            (encodeGptPartition (gptNewPartition preview fields)))

/-- deleteGPTPartition (partition_delete.go lines 45-172): read header
and entry array, find the part.Number-th non-empty entry, zero that slot,
write everything back through the common write tail. -/
def deleteGPTPartition (d : Disk) (part : PartitionInfo) : Except String Disk :=
  match readAt d 512 512 with
  | none => .error "error reading GPT header"
  | some headerBytes =>
    match readAt d ((parseGptHeader headerBytes).PartitionEntryLBA * 512)
        ((parseGptHeader headerBytes).NumPartEntries * (parseGptHeader headerBytes).PartEntrySize) with
    | none => .error "error reading GPT entries"
    | some table =>
      match gptDeleteScan (parseGptHeader headerBytes).PartEntrySize table part.Number 0
          (parseGptHeader headerBytes).NumPartEntries 0 with
      | none => .error "partition not found"
      | some i =>
        writeGPTTable d (parseGptHeader headerBytes)
          (splice table (i * (parseGptHeader headerBytes).PartEntrySize)
            (List.replicate (parseGptHeader headerBytes).PartEntrySize 0))

/-- One 16-byte MBR entry as read by `binary.Read` (structs_linux.go):
status byte, 3 CHS padding bytes, type byte, 3 CHS padding bytes, then
LE32 first sector and sector count (`Type` is a Lean keyword, hence
`Type'`). -/
def parseMbrEntry (b : List Nat) (off : Nat) : mbrPartition where
  Status := b.getD off 0
  Type' := b.getD (off + 4) 0
  FirstSector := getLE b (off + 8) 4
  Sectors := getLE b (off + 12) 4

/-- mbrStruct (structs_linux.go): 446 opaque boot-code bytes (a blank
field), four entries, LE16 signature. -/
structure mbrStruct where
  Partitions : List mbrPartition
  Signature : Nat
deriving DecidableEq

/-- `binary.Read` of the 512-byte mbrStruct. -/
def parseMbrStruct (b : List Nat) : mbrStruct where
  Partitions := [parseMbrEntry b 446, parseMbrEntry b 462, parseMbrEntry b 478, parseMbrEntry b 494]
  Signature := getLE b 510 2

/-- `binary.Write` of one mbrPartition: blank (padding) fields are
written as zero bytes. -/
def encodeMbrEntry (p : mbrPartition) : List Nat :=
  [p.Status % 256, 0, 0, 0, p.Type' % 256, 0, 0, 0] ++ putLEbytes p.FirstSector 4 ++ putLEbytes p.Sectors 4

/-- `binary.Write` of the whole mbrStruct: the 446 boot-code bytes are a
blank field, so Go writes them back as zeros. -/
def encodeMbrStruct (m : mbrStruct) : List Nat :=
  List.replicate 446 0 ++ (m.Partitions.map encodeMbrEntry).flatten ++ putLEbytes m.Signature 2

/-- Slot selection of createMBRPartition (src/unnamed/part_003 lines
273-293): prefer the requested slot when the number is in 1..4 and that
slot's sector count is zero; otherwise fall back to the first slot with a
zero sector count. -/
def findMBRSlot (parts : List mbrPartition) (requested : Int) : Option Nat :=
  let fromRequested : Option Nat :=
    if 0 < requested ∧ requested ≤ 4 then
      if (parts.getD (requested - 1).toNat mbrZero).Sectors = 0 then some (requested - 1).toNat
      else none
    else none
  match fromRequested with
  | some s => some s
  | none => (List.range 4).find? (fun i => (parts.getD i mbrZero).Sectors == 0)

/-- createMBRPartition (src/unnamed/part_003 lines 256-321): read and
check the MBR, pick a slot, build the entry (status 0, type byte from the
form's type field, `uint32` casts of first LBA and sector count), store
it and write the 512 bytes back. -/
def createMBRPartition (d : Disk) (preview : PartitionInfo) (fields : List FormField)
    (isExtended : Bool) : Except String Disk :=
  match readAt d 0 512 with
  | none => .error "error reading MBR"
  | some b =>
    let mbr := parseMbrStruct b
    if mbr.Signature != 0xAA55 then .error "invalid MBR signature"
    else
      match findMBRSlot mbr.Partitions preview.Number with
      | none => .error "no free partition slot available (MBR supports max 4 primary partitions)"
      | some emptySlot =>
        let part : mbrPartition :=
          { Status := 0x00
            Type' := getMBRTypeFromName (fields.getD 5 default).value
            FirstSector := preview.FirstLBA % 2 ^ 32
            Sectors := preview.TotalSectors % 2 ^ 32 }
        match writeAt d 0 (encodeMbrStruct { mbr with Partitions := mbr.Partitions.set emptySlot part }) with
        | none => .error "error writing MBR"
        | some d1 => .ok d1

/-- The primary-slot search loop of deleteMBRPartition
(partition_delete.go lines 193-218): count slots with a non-zero sector
count, stop at the part.Number-th. -/
def mbrDeleteScan (target : Int) : List mbrPartition → Nat → Int → Option Nat
  | [], _, _ => none
  | p :: rest, i, partID =>
    if p.Sectors != 0 then
      if partID + 1 = target then some i
      else mbrDeleteScan target rest (i + 1) (partID + 1)
    else mbrDeleteScan target rest (i + 1) partID

/-- deleteMBRPartition (partition_delete.go lines 175-221). -/
def deleteMBRPartition (d : Disk) (part : PartitionInfo) : Except String Disk :=
  match readAt d 0 512 with
  | none => .error "error reading MBR"
  | some b =>
    let mbr := parseMbrStruct b
    if mbr.Signature != 0xAA55 then .error "invalid MBR signature"
    else
      match mbrDeleteScan part.Number mbr.Partitions 0 0 with
      | none => .error "partition not found"
      | some i =>
        match writeAt d 0 (encodeMbrStruct { mbr with Partitions := mbr.Partitions.set i mbrZero }) with
        | none => .error "error writing MBR"
        | some d1 => .ok d1

/-- deletePartition (partition_delete.go lines 15-42): fail before
touching the disk when the caller-supplied record says the partition is
mounted; otherwise open the device (no-op in the pure model) and dispatch
on the GPT signature probe. -/
def deletePartition (d : Disk) (part : PartitionInfo) : Except String Disk :=
  if part.Mounted then
    .error ("cannot delete mounted partition. Please unmount it first: " ++ part.MountPoint)
  else if isGPTDiskSafe d then deleteGPTPartition d part
  else deleteMBRPartition d part

/-- The MBR partition-number validation step of
validateCreatePartitionForm (tui_create_partition.go lines 380-386). -/
def validateMBRPartitionNumber (n : Int) : Bool :=
  if n < 1 ∨ n > 4 then false else true

/-- The free-space bounds validation step of validateCreatePartitionForm
(tui_create_partition.go lines 388-398): reject a start before the gap;
reject an end past the gap, but only when the gap's end is known
(non-zero).  Runs before any disk access. -/
def validatePartitionBounds (preview unusedPartition : PartitionInfo) : Except String Unit :=
  if preview.FirstLBA < unusedPartition.FirstLBA then
    .error "Start LBA is before unused space start"
  else if unusedPartition.LastLBA > 0 ∧ preview.LastLBA > unusedPartition.LastLBA then
    .error "End LBA exceeds unused space end"
  else .ok ()

/-- isExtendedType (src/unnamed/part_019). -/
def isExtendedType (t : Nat) : Bool :=
  t == 0x05 || t == 0x0F || t == 0x85

/-- parseMBREntryFromBytes (src/unnamed/part_019): manual decode of one
16-byte entry. -/
def parseMBREntryFromBytes (b : List Nat) : mbrPartition where
  Status := b.getD 0 0
  Type' := b.getD 4 0
  FirstSector := getLE b 8 4
  Sectors := getLE b 12 4

/-- The next-EBR decision from the second entry of an EBR sector
(src/unnamed/part_019 lines 79-86): stop on an empty or non-extended
entry, otherwise hop to `baseLBA + e2.FirstSector` — relative to the
original extended partition's base, not the current EBR. -/
def ebrNext (baseLBA : Nat) (e2 : mbrPartition) : Option Nat :=
  if e2.Type' == 0 || e2.Sectors == 0 then none
  else if !(isExtendedType e2.Type') then none
  else some (baseLBA + e2.FirstSector)

/-- The logical partition yielded by the first entry of the EBR sector at
LBA `cur` (src/unnamed/part_019 lines 51-77): absolute start
`cur + e1.FirstSector` (stored through a `uint32` cast); with a known
positive disk size, an entry whose start or end exceeds
`sizeBytes / sectorSize` is silently dropped. -/
def ebrYield (sizeBytes : Int) (sectorSize cur : Nat) (e1 : mbrPartition) : List mbrPartition :=
  if e1.Type' != 0 && e1.Sectors != 0 then
    if sizeBytes > 0 then
      if cur + e1.FirstSector ≤ sizeBytes.toNat / sectorSize ∧
         cur + e1.FirstSector + e1.Sectors - 1 ≤ sizeBytes.toNat / sectorSize then
        [{ Status := e1.Status, Type' := e1.Type'
           FirstSector := (cur + e1.FirstSector) % 2 ^ 32, Sectors := e1.Sectors % 2 ^ 32 }]
      else []
    else
      [{ Status := e1.Status, Type' := e1.Type'
         FirstSector := (cur + e1.FirstSector) % 2 ^ 32, Sectors := e1.Sectors % 2 ^ 32 }]
  else []

/-- One iteration of the readEBRChain loop body on the sector bytes at
LBA `cur` (src/unnamed/part_019 lines 37-86): signature check, decode the
two entries at offset 446, yield from the first, decide the next hop from
the second. -/
def ebrProcessSector (sizeBytes : Int) (sectorSize baseLBA cur : Nat) (buf : List Nat) :
    Except String (List mbrPartition × Option Nat) :=
  if buf.length < 512 ∨ buf.getD 510 0 ≠ 0x55 ∨ buf.getD 511 0 ≠ 0xAA then
    .error "EBR signature missing"
  else
    .ok (ebrYield sizeBytes sectorSize cur (parseMBREntryFromBytes (segment buf 446 16)),
         ebrNext baseLBA (parseMBREntryFromBytes (segment buf 462 16)))

/-- The readEBRChain loop (src/unnamed/part_019 lines 36-87) with
`maxHops = 128` as fuel.  The second component is ghost instrumentation:
the list of EBR LBAs the loop visited (one per iteration entered). -/
def readEBRChainAux (d : Disk) (sizeBytes : Int) (sectorSize baseLBA : Nat) :
    Nat → Nat → List mbrPartition → List Nat → Except String (List mbrPartition) × List Nat
  | 0, _, acc, visited => (.ok acc, visited)
  | fuel + 1, cur, acc, visited =>
    match readAt d (cur * sectorSize) sectorSize with
    | none => (.error "read EBR failed", visited ++ [cur])
    | some buf =>
      match ebrProcessSector sizeBytes sectorSize baseLBA cur buf with
      | .error e => (.error e, visited ++ [cur])
      | .ok (newParts, none) => (.ok (acc ++ newParts), visited ++ [cur])
      | .ok (newParts, some nxt) =>
        readEBRChainAux d sizeBytes sectorSize baseLBA fuel nxt (acc ++ newParts) (visited ++ [cur])

/-- readEBRChain (src/unnamed/part_019 lines 31-90). -/
def readEBRChain (d : Disk) (sizeBytes : Int) (sectorSize baseLBA : Nat) :
    Except String (List mbrPartition) :=
  (readEBRChainAux d sizeBytes sectorSize baseLBA 128 baseLBA [] []).1

/-- The EBR LBAs visited by readEBRChain, in order. -/
def readEBRChainVisited (d : Disk) (sizeBytes : Int) (sectorSize baseLBA : Nat) : List Nat :=
  (readEBRChainAux d sizeBytes sectorSize baseLBA 128 baseLBA [] []).2


/-! ### Geometry observers and the post-mutation CRC invariant -/

/-- The primary GPT header as parsed from sector 1 of a disk. -/
def gptPrimaryHeader (d : Disk) : gptHeader := parseGptHeader (segment d 512 512)

/-- The backup GPT header as parsed from the primary header's BackupLBA. -/
def gptBackupHeader (d : Disk) : gptHeader :=
  parseGptHeader (segment d ((gptPrimaryHeader d).BackupLBA * 512) 512)

/-- Byte length of the partition-entry array per the primary header. -/
def gptTableLen (d : Disk) : Nat :=
  (gptPrimaryHeader d).NumPartEntries * (gptPrimaryHeader d).PartEntrySize

/-- Byte regions [a, a+la) and [b, b+lb) do not overlap. -/
def regionsDisjoint (a la b lb : Nat) : Prop := a + la ≤ b ∨ b + lb ≤ a

instance (a la b lb : Nat) : Decidable (regionsDisjoint a la b lb) := by
  unfold regionsDisjoint
  infer_instance

/-- Sane on-disk GPT geometry: both headers carry a header size between
the 92-byte struct size and the sector size, and the four byte ranges the
mutation writes (primary entries, primary header, backup entries, backup
header sector) are pairwise disjoint. -/
def gptGeomOK (d : Disk) : Prop :=
  92 ≤ (gptPrimaryHeader d).HeaderSize ∧ (gptPrimaryHeader d).HeaderSize ≤ 512 ∧
  92 ≤ (gptBackupHeader d).HeaderSize ∧ (gptBackupHeader d).HeaderSize ≤ 512 ∧
  regionsDisjoint ((gptPrimaryHeader d).PartitionEntryLBA * 512) (gptTableLen d)
    512 (gptPrimaryHeader d).HeaderSize ∧
  regionsDisjoint ((gptPrimaryHeader d).PartitionEntryLBA * 512) (gptTableLen d)
    ((gptBackupHeader d).PartitionEntryLBA * 512) (gptTableLen d) ∧
  regionsDisjoint ((gptPrimaryHeader d).PartitionEntryLBA * 512) (gptTableLen d)
    ((gptPrimaryHeader d).BackupLBA * 512) 512 ∧
  regionsDisjoint 512 (gptPrimaryHeader d).HeaderSize
    ((gptBackupHeader d).PartitionEntryLBA * 512) (gptTableLen d) ∧
  regionsDisjoint 512 (gptPrimaryHeader d).HeaderSize
    ((gptPrimaryHeader d).BackupLBA * 512) 512 ∧
  regionsDisjoint ((gptBackupHeader d).PartitionEntryLBA * 512) (gptTableLen d)
    ((gptPrimaryHeader d).BackupLBA * 512) 512

instance (d : Disk) : Decidable (gptGeomOK d) := by
  unfold gptGeomOK
  infer_instance

/-- The post-mutation invariant, read back from the mutated disk `dp`
with the geometry of the original disk `d`: primary and backup entry
arrays are byte-identical; in both headers the stored header CRC equals
the checksum of the stored header bytes with the CRC field zeroed, and
the stored entries CRC equals the checksum of the stored entry array. -/
def gptCrcOK (d dp : Disk) : Prop :=
  segment dp ((gptPrimaryHeader d).PartitionEntryLBA * 512) (gptTableLen d)
    = segment dp ((gptBackupHeader d).PartitionEntryLBA * 512) (gptTableLen d) ∧
  getLE (segment dp 512 (gptPrimaryHeader d).HeaderSize) 16 4
    = crc32ChecksumIEEE
        (splice (segment dp 512 (gptPrimaryHeader d).HeaderSize) 16 (List.replicate 4 0)) ∧
  getLE (segment dp 512 (gptPrimaryHeader d).HeaderSize) 88 4
    = crc32ChecksumIEEE
        (segment dp ((gptPrimaryHeader d).PartitionEntryLBA * 512) (gptTableLen d)) ∧
  getLE (segment dp ((gptPrimaryHeader d).BackupLBA * 512) (gptBackupHeader d).HeaderSize) 16 4
    = crc32ChecksumIEEE
        (splice (segment dp ((gptPrimaryHeader d).BackupLBA * 512) (gptBackupHeader d).HeaderSize)
          16 (List.replicate 4 0)) ∧
  getLE (segment dp ((gptPrimaryHeader d).BackupLBA * 512) (gptBackupHeader d).HeaderSize) 88 4
    = crc32ChecksumIEEE
        (segment dp ((gptBackupHeader d).PartitionEntryLBA * 512) (gptTableLen d))


/-! ### Concrete disks and records instantiating the claims -/

/-- A 92-byte GPT header image: EFI signature, zero revision, the given
header size, zero CRC fields, CurrentLBA 1, the given backup-header LBA,
usable range 34..2047, zero disk GUID, then the given entry-array LBA,
entry count and entry size, and a zero entries CRC. -/
def mkGptHeaderBytes (hs backupLBA entryLBA num esize : Nat) : List Nat :=
  efiSignature ++ List.replicate 4 0 ++ putLEbytes hs 4 ++ putLEbytes 0 4 ++
  List.replicate 4 0 ++ putLEbytes 1 8 ++ putLEbytes backupLBA 8 ++ putLEbytes 34 8 ++
  putLEbytes 2047 8 ++ List.replicate 16 0 ++ putLEbytes entryLBA 8 ++ putLEbytes num 4 ++
  putLEbytes esize 4 ++ putLEbytes 0 4

/-- One non-empty 128-byte GPT entry: type GUID starting with byte 1,
LBA range 2048..4095, zero flags and name. -/
def c1Entry : List Nat :=
  1 :: (List.replicate 31 0 ++ putLEbytes 2048 8 ++ putLEbytes 4095 8 ++ List.replicate 80 0)

/-- A 2560-byte GPT disk: one entry slot, primary entries at LBA 2,
backup header at LBA 4 with its own entry array at LBA 3. -/
def c1Disk : Disk :=
  List.replicate 512 0 ++ mkGptHeaderBytes 92 4 2 1 128 ++ List.replicate 420 0 ++
  c1Entry ++ List.replicate 896 0 ++ mkGptHeaderBytes 92 4 3 1 128 ++ List.replicate 420 0

/-- A delete request for partition number 1 (not mounted). -/
def c1Part : PartitionInfo := { (default : PartitionInfo) with Number := 1 }

/-- The disk written by deleting partition 1 of c1Disk. -/
def c1Result : Disk :=
  match deleteGPTPartition c1Disk c1Part with
  | Except.ok x => x
  | Except.error _ => []

/-- c1Disk with a degenerate primary header size of 20 bytes. -/
def c1cxDisk : Disk :=
  List.replicate 512 0 ++ mkGptHeaderBytes 20 4 2 1 128 ++ List.replicate 420 0 ++
  c1Entry ++ List.replicate 896 0 ++ mkGptHeaderBytes 92 4 3 1 128 ++ List.replicate 420 0

/-- The disk written by deleting partition 1 of c1cxDisk. -/
def c1cxResult : Disk :=
  match deleteGPTPartition c1cxDisk c1Part with
  | Except.ok x => x
  | Except.error _ => []

/-- A two-slot entry array whose first slot holds a non-empty entry and
whose second slot is empty. -/
def c2Table : List Nat :=
  (1 :: (List.replicate 31 0 ++ putLEbytes 2048 8 ++ putLEbytes 4095 8 ++ List.replicate 80 0)) ++
  List.replicate 128 0

/-- A 3072-byte GPT disk around c2Table: two entry slots at LBA 2, backup
header at LBA 5 with its entry array at LBA 3. -/
def c2Disk : Disk :=
  List.replicate 512 0 ++ mkGptHeaderBytes 92 5 2 2 128 ++ List.replicate 420 0 ++
  c2Table ++ List.replicate 1280 0 ++ mkGptHeaderBytes 92 5 3 2 128 ++ List.replicate 420 0

/-- A create request that explicitly asks for partition number 2. -/
def c2Preview : PartitionInfo :=
  { (default : PartitionInfo) with Number := 2, FirstLBA := 4096, LastLBA := 8191 }

/-- The six TUI form fields with the type field (index 5) set to a known
type name. -/
def c2Fields : List FormField :=
  [default, default, default, default, default,
   { label := "Type:", value := "Linux Filesystem", fieldType := "select", options := [] }]

/-- The disk written by the create request on c2Disk. -/
def c2Result : Disk :=
  match createGPTPartition c2Disk c2Preview c2Fields with
  | Except.ok x => x
  | Except.error _ => []

/-- One MBR sector: slot 1 holds a bootable 0x83 entry of 100 sectors at
LBA 2048, the other slots are empty, signature 0xAA55. -/
def c3Disk : Disk :=
  List.replicate 446 0 ++
  ([0x80, 0, 0, 0, 0x83, 0, 0, 0] ++ putLEbytes 2048 4 ++ putLEbytes 100 4) ++
  List.replicate 48 0 ++ [0x55, 0xAA]

/-- A create request that explicitly asks for the occupied slot 1. -/
def c3Preview : PartitionInfo :=
  { (default : PartitionInfo) with Number := 1, FirstLBA := 4096, TotalSectors := 50 }

/-- Form fields for the MBR create (type field index 5). -/
def c3Fields : List FormField :=
  [default, default, default, default, default,
   { label := "Type:", value := "Linux Filesystem", fieldType := "select", options := [] }]

/-- The disk written by the MBR create request on c3Disk. -/
def c3Result : Disk :=
  match createMBRPartition c3Disk c3Preview c3Fields false with
  | Except.ok x => x
  | Except.error _ => []

/-- The parsed slots of an MBR whose slot 1 is occupied. -/
def c3wParts : List mbrPartition :=
  [{ Status := 0x80, Type' := 0x83, FirstSector := 2048, Sectors := 100 },
   mbrZero, mbrZero, mbrZero]

/-- A create preview starting exactly at the gap's first LBA. -/
def c4Preview : PartitionInfo :=
  { (default : PartitionInfo) with FirstLBA := 10, LastLBA := 50 }

/-- A free-space gap record covering LBAs 10..100. -/
def c4Gap : PartitionInfo :=
  { (default : PartitionInfo) with FirstLBA := 10, LastLBA := 100 }

/-- An EBR sector whose first entry (type 0x83, 100 sectors at relative
LBA 60) lies beyond a 10-sector disk bound, and whose second entry is
empty. -/
def c6cxBuf : List Nat :=
  List.replicate 446 0 ++
  ([0, 0, 0, 0, 0x83, 0, 0, 0] ++ putLEbytes 60 4 ++ putLEbytes 100 4) ++
  List.replicate 48 0 ++ [0x55, 0xAA]

/-- A disk holding the out-of-bounds EBR sector c6cxBuf at LBA 2. -/
def c6cxDisk : Disk := List.replicate 1024 0 ++ c6cxBuf

/-- An EBR sector with an in-bounds first entry (type 0x83, 4 sectors at
relative LBA 3) and a second entry of extended type 0x05 at relative
LBA 7. -/
def c6wBuf : List Nat :=
  List.replicate 446 0 ++
  ([0, 0, 0, 0, 0x83, 0, 0, 0] ++ putLEbytes 3 4 ++ putLEbytes 4 4) ++
  ([0, 0, 0, 0, 0x05, 0, 0, 0] ++ putLEbytes 7 4 ++ putLEbytes 2 4) ++
  List.replicate 32 0 ++ [0x55, 0xAA]

/-- The logical partition c6wBuf yields when the current EBR sits at
LBA 2: absolute start 2 + 3 = 5. -/
def c6wParts : List mbrPartition :=
  [{ Status := 0, Type' := 0x83, FirstSector := 5, Sectors := 4 }]

/-- A one-sector disk whose EBR at LBA 0 has an empty first entry and a
second entry of extended type 0x05 at relative LBA 0: the chain points
back to itself forever. -/
def c7CycleDisk : Disk :=
  List.replicate 446 0 ++ List.replicate 16 0 ++
  ([0, 0, 0, 0, 0x05, 0, 0, 0] ++ putLEbytes 0 4 ++ putLEbytes 1 4) ++
  List.replicate 32 0 ++ [0x55, 0xAA]

/-- One entry slot with a non-zero type GUID but a zero FirstLBA. -/
def c8Table : List Nat := 1 :: List.replicate 127 0

/-- One entry slot holding a fully non-empty entry. -/
def c8wTable : List Nat :=
  1 :: (List.replicate 31 0 ++ putLEbytes 2048 8 ++ putLEbytes 4095 8 ++ List.replicate 80 0)

/-- A partition record flagged as mounted at /mnt/data. -/
def c9Part : PartitionInfo :=
  { (default : PartitionInfo) with Mounted := true, MountPoint := "/mnt/data" }

/-- An EBR sector with the same shape as c6cxBuf: the first entry is out
of bounds for a 10-sector disk, the second entry is empty. -/
def c10Buf : List Nat :=
  List.replicate 446 0 ++
  ([0, 0, 0, 0, 0x83, 0, 0, 0] ++ putLEbytes 60 4 ++ putLEbytes 100 4) ++
  List.replicate 48 0 ++ [0x55, 0xAA]


/-! ### Basic facts about the byte-buffer primitives -/

theorem xorBits_lt (k a b : Nat) : xorBits k a b < 2 ^ k := by
  induction k generalizing a b with
  | zero => simp [xorBits]
  | succ k ih =>
    have h := ih (a / 2) (b / 2)
    have hp : 2 ^ (k + 1) = 2 * 2 ^ k := by ring
    unfold xorBits
    split <;> omega

theorem xor32_lt (a b : Nat) : xor32 a b < 2 ^ 32 := xorBits_lt 32 a b

theorem crc32ChecksumIEEE_lt (data : List Nat) : crc32ChecksumIEEE data < 2 ^ 32 :=
  xor32_lt _ _

/-- The plain recurrence of `crcFold`: the forcing branch is the identity. -/
theorem crcFold_cons (c b : Nat) (l : List Nat) :
    crcFold c (b :: l) = crcFold (crc32Byte c b) l := by
  show (if crc32Byte c b = 0 then crcFold 0 l else crcFold (crc32Byte c b) l) = _
  by_cases h : crc32Byte c b = 0
  · rw [if_pos h, h]
  · rw [if_neg h]

-- crc32Table_spec is re-added at the end of the file (slow decide).

theorem putLEbytes_length (v n : Nat) : (putLEbytes v n).length = n := by
  induction n generalizing v with
  | zero => rfl
  | succ n ih => simp [putLEbytes, ih]

theorem leVal_cons (x : Nat) (l : List Nat) : leVal (x :: l) = x % 256 + 256 * leVal l := rfl

theorem leVal_putLEbytes (n v : Nat) : leVal (putLEbytes v n) = v % 2 ^ (8 * n) := by
  induction n generalizing v with
  | zero => simp [putLEbytes, leVal, Nat.mod_one]
  | succ n ih =>
    rw [putLEbytes, leVal_cons, ih]
    rw [show 2 ^ (8 * (n + 1)) = 256 * 2 ^ (8 * n) by ring, Nat.mod_mul]
    have hm : v % 256 % 256 = v % 256 := by omega
    omega

theorem fixBytes_length (n : Nat) (l : List Nat) : (fixBytes n l).length = n := by
  simp [fixBytes]
  omega

theorem take_length_of_le {d : List Nat} {off : Nat} (h : off ≤ d.length) :
    (d.take off).length = off := by
  simp
  omega

theorem segment_length {d : List Nat} {off len : Nat} (h : off + len ≤ d.length) :
    (segment d off len).length = len := by
  simp [segment]
  omega

theorem splice_length {d src : List Nat} {off : Nat} (h : off + src.length ≤ d.length) :
    (splice d off src).length = d.length := by
  simp [splice]
  omega

theorem segment_splice_same {d src : List Nat} {off : Nat} (h : off + src.length ≤ d.length) :
    segment (splice d off src) off src.length = src := by
  have hA : (d.take off).length = off := take_length_of_le (by omega)
  rw [segment, splice, List.append_assoc, List.drop_append_eq_append_drop, hA,
    List.drop_eq_nil_of_le (le_of_eq hA), Nat.sub_self, List.drop_zero, List.nil_append,
    List.take_append_eq_append_take, List.take_of_length_le (le_refl src.length),
    Nat.sub_self, List.take_zero, List.append_nil]

theorem segment_splice_left {d src : List Nat} {off off2 len2 : Nat}
    (hd : off ≤ d.length) (h : off2 + len2 ≤ off) :
    segment (splice d off src) off2 len2 = segment d off2 len2 := by
  have hA : (d.take off).length = off := take_length_of_le hd
  rw [segment, splice, List.append_assoc, List.drop_append_eq_append_drop, hA,
    show off2 - off = 0 by omega, List.drop_zero, List.take_append_eq_append_take]
  have hlen : ((d.take off).drop off2).length = off - off2 := by
    simp
    omega
  rw [hlen, show len2 - (off - off2) = 0 by omega, List.take_zero, List.append_nil,
    List.drop_take, List.take_take, segment]
  congr 1
  omega

theorem segment_splice_right {d src : List Nat} {off off2 len2 : Nat}
    (hd : off + src.length ≤ d.length) (h : off + src.length ≤ off2) :
    segment (splice d off src) off2 len2 = segment d off2 len2 := by
  have hA : (d.take off ++ src).length = off + src.length := by
    simp
    omega
  rw [segment, splice, List.drop_append_eq_append_drop,
    List.drop_eq_nil_of_le (by omega : (d.take off ++ src).length ≤ off2), List.nil_append,
    hA, List.drop_drop, segment]
  congr 2
  omega

theorem take_splice {d src : List Nat} {off hs : Nat}
    (h1 : off + src.length ≤ hs) (h2 : off + src.length ≤ d.length) :
    (splice d off src).take hs = splice (d.take hs) off src := by
  have hA : (d.take off).length = off := take_length_of_le (by omega)
  rw [splice, List.append_assoc, List.take_append_eq_append_take, hA,
    List.take_of_length_le (by omega : (d.take off).length ≤ hs),
    List.take_append_eq_append_take,
    List.take_of_length_le (by omega : src.length ≤ hs - off),
    splice, List.take_take, List.drop_take, List.append_assoc]
  congr 2
  · omega
  · congr 1
    omega

theorem splice_splice_same {d p q : List Nat} {off : Nat}
    (hlen : p.length = q.length) (h : off ≤ d.length) :
    splice (splice d off p) off q = splice d off q := by
  have hA : (d.take off).length = off := take_length_of_le h
  have htake : (splice d off p).take off = d.take off := by
    rw [splice, List.append_assoc, List.take_append_eq_append_take, hA, Nat.sub_self,
      List.take_zero, List.append_nil, List.take_take]
    congr 1
    omega
  have hdrop : (splice d off p).drop (off + q.length) = d.drop (off + p.length) := by
    rw [splice, List.append_assoc, List.drop_append_eq_append_drop, hA,
      List.drop_eq_nil_of_le (by omega : (d.take off).length ≤ off + q.length),
      List.nil_append, show off + q.length - off = p.length by omega,
      List.drop_left' rfl]
  rw [splice, htake, hdrop, splice, hlen]

theorem segment_take {x : List Nat} {a b hs : Nat} (h : a + b ≤ hs) :
    segment (x.take hs) a b = segment x a b := by
  rw [segment, segment, List.drop_take, List.take_take]
  congr 1
  omega

theorem getLE_splice_self {b : List Nat} {off v : Nat} (h : off + 4 ≤ b.length) :
    getLE (putLE32 b off v) off 4 = v % 2 ^ 32 := by
  have h4 : (putLEbytes v 4).length = 4 := putLEbytes_length v 4
  have hs := @segment_splice_same b (putLEbytes v 4) off (by rw [h4]; omega)
  rw [h4] at hs
  rw [getLE, putLE32, hs, leVal_putLEbytes]

theorem lenAtLeast_iff : ∀ (d : List Nat) (n : Nat), lenAtLeast d n = true ↔ n ≤ d.length := by
  intro d
  induction d with
  | nil =>
    intro n
    cases n with
    | zero => simp [lenAtLeast]
    | succ n => simp [lenAtLeast]
  | cons x t ih =>
    intro n
    cases n with
    | zero => simp [lenAtLeast]
    | succ n =>
      rw [lenAtLeast, ih n, List.length_cons]
      omega

theorem readAt_eq_some {d : Disk} {off len : Nat} {b : List Nat}
    (h : readAt d off len = some b) : off + len ≤ d.length ∧ b = segment d off len := by
  unfold readAt at h
  split at h
  · rename_i hle
    exact ⟨(lenAtLeast_iff d (off + len)).mp hle, (Option.some.injEq _ _ ▸ h).symm⟩
  · exact absurd h (by simp)

theorem writeAt_eq_some {d d1 : Disk} {off : Nat} {src : List Nat}
    (h : writeAt d off src = some d1) : off + src.length ≤ d.length ∧ d1 = splice d off src := by
  unfold writeAt at h
  split at h
  · rename_i hle
    exact ⟨(lenAtLeast_iff d (off + src.length)).mp hle, (Option.some.injEq _ _ ▸ h).symm⟩
  · exact absurd h (by simp)


/-! ### The CRC invariant of the written header buffers -/

theorem putLE32_length {hb : List Nat} {off v : Nat} (h : off + 4 ≤ hb.length) :
    (putLE32 hb off v).length = hb.length :=
  splice_length (by rw [putLEbytes_length]; omega)

theorem gptHeaderPatched_length {hb : List Nat} {crcE : Nat} (h : 92 ≤ hb.length) :
    (gptHeaderPatched hb crcE).length = hb.length := by
  have h1 : (putLE32 hb 88 crcE).length = hb.length := putLE32_length (by omega)
  have h2 : (gptHeaderPatched hb crcE).length = (putLE32 hb 88 crcE).length :=
    splice_length (by simp [h1] <;> omega)
  rw [h2, h1]

theorem gptHeaderFinal_length {hb : List Nat} {hs crcE : Nat} (h : 92 ≤ hb.length) :
    (gptHeaderFinal hb hs crcE).length = hb.length := by
  have hP := @gptHeaderPatched_length hb crcE h
  have h1 : (gptHeaderFinal hb hs crcE).length = (gptHeaderPatched hb crcE).length :=
    putLE32_length (by omega)
  rw [h1, hP]

/-- The patched header bytes truncated to the header size, as a splice of
the truncated entries-CRC store under the zeroed field. -/
theorem gptHeaderPatched_take {hb : List Nat} {hs crcE : Nat}
    (hlen : hb.length = 512) (h20 : 20 ≤ hs) (h512 : hs ≤ 512) :
    (gptHeaderPatched hb crcE).take hs
      = splice ((putLE32 hb 88 crcE).take hs) 16 (List.replicate 4 0) := by
  have hput : (putLE32 hb 88 crcE).length = 512 := (putLE32_length (by omega)).trans hlen
  rw [gptHeaderPatched]
  exact take_splice (by simp <;> omega) (by simp [hput] <;> omega)

/-- Zeroing bytes 16-19 of the patched header bytes changes nothing: they
are already zero. -/
theorem gptHeaderPatched_take_zero16 {hb : List Nat} {hs crcE : Nat}
    (hlen : hb.length = 512) (h20 : 20 ≤ hs) (h512 : hs ≤ 512) :
    splice ((gptHeaderPatched hb crcE).take hs) 16 (List.replicate 4 0)
      = (gptHeaderPatched hb crcE).take hs := by
  have hput : (putLE32 hb 88 crcE).length = 512 := (putLE32_length (by omega)).trans hlen
  rw [gptHeaderPatched_take hlen h20 h512]
  exact splice_splice_same rfl (by simp [hput] <;> omega)

/-- The final header buffer truncated to the header size, as a splice of
the truncated patched bytes under the stored header CRC. -/
theorem gptHeaderFinal_take {hb : List Nat} {hs crcE : Nat}
    (hlen : hb.length = 512) (h20 : 20 ≤ hs) (h512 : hs ≤ 512) :
    (gptHeaderFinal hb hs crcE).take hs
      = splice ((gptHeaderPatched hb crcE).take hs) 16
          (putLEbytes (crc32ChecksumIEEE ((gptHeaderPatched hb crcE).take hs)) 4) := by
  have hPlen : (gptHeaderPatched hb crcE).length = 512 :=
    (gptHeaderPatched_length (by omega)).trans hlen
  rw [gptHeaderFinal, putLE32]
  exact take_splice (by rw [putLEbytes_length]; omega) (by rw [putLEbytes_length, hPlen]; omega)

theorem gptHeaderFinal_take_length {hb : List Nat} {hs crcE : Nat}
    (hlen : hb.length = 512) (h512 : hs ≤ 512) :
    ((gptHeaderFinal hb hs crcE).take hs).length = hs := by
  have h1 : (gptHeaderFinal hb hs crcE).length = 512 :=
    (gptHeaderFinal_length (by omega)).trans hlen
  simp [h1]
  omega

/-- The stored header CRC of the written header bytes re-validates: the
field at offset 16 equals the checksum of the written bytes with that
field zeroed. -/
theorem gptHeaderFinal_crc_self {hb : List Nat} {hs crcE : Nat}
    (hlen : hb.length = 512) (h20 : 20 ≤ hs) (h512 : hs ≤ 512) :
    getLE ((gptHeaderFinal hb hs crcE).take hs) 16 4
      = crc32ChecksumIEEE (splice ((gptHeaderFinal hb hs crcE).take hs) 16 (List.replicate 4 0)) := by
  have hPlen : (gptHeaderPatched hb crcE).length = 512 :=
    (gptHeaderPatched_length (by omega)).trans hlen
  have hc : crc32ChecksumIEEE ((gptHeaderPatched hb crcE).take hs) < 2 ^ 32 :=
    crc32ChecksumIEEE_lt _
  have lhs_eq : getLE ((gptHeaderFinal hb hs crcE).take hs) 16 4
      = crc32ChecksumIEEE ((gptHeaderPatched hb crcE).take hs) := by
    have h1 : segment ((gptHeaderFinal hb hs crcE).take hs) 16 4
        = segment (gptHeaderFinal hb hs crcE) 16 4 := segment_take (by omega)
    have h2 := @getLE_splice_self (gptHeaderPatched hb crcE) 16
      (crc32ChecksumIEEE ((gptHeaderPatched hb crcE).take hs)) (by omega)
    rw [getLE] at h2
    rw [getLE, h1, gptHeaderFinal, h2, Nat.mod_eq_of_lt hc]
  have rhs_arg : splice ((gptHeaderFinal hb hs crcE).take hs) 16 (List.replicate 4 0)
      = (gptHeaderPatched hb crcE).take hs := by
    rw [gptHeaderFinal_take hlen h20 h512,
      splice_splice_same (by simp [putLEbytes_length]) (by simp [hPlen] <;> omega),
      gptHeaderPatched_take_zero16 hlen h20 h512]
  rw [lhs_eq, rhs_arg]

/-- The stored entries-CRC field (offset 88) of the written header bytes
is the checksum passed in. -/
theorem gptHeaderFinal_entries_field {hb : List Nat} {hs crcE : Nat}
    (hlen : hb.length = 512) (h92 : 92 ≤ hs) (h512 : hs ≤ 512) (hc : crcE < 2 ^ 32) :
    getLE ((gptHeaderFinal hb hs crcE).take hs) 88 4 = crcE := by
  have hPlen : (gptHeaderPatched hb crcE).length = 512 :=
    (gptHeaderPatched_length (by omega)).trans hlen
  have hput : (putLE32 hb 88 crcE).length = 512 := (putLE32_length (by omega)).trans hlen
  have h1 : segment ((gptHeaderFinal hb hs crcE).take hs) 88 4
      = segment (gptHeaderFinal hb hs crcE) 88 4 := segment_take (by omega)
  have h2 : segment (gptHeaderFinal hb hs crcE) 88 4
      = segment (gptHeaderPatched hb crcE) 88 4 := by
    rw [gptHeaderFinal, putLE32]
    exact segment_splice_right (by rw [putLEbytes_length, hPlen]; omega)
      (by rw [putLEbytes_length]; omega)
  have h3 : segment (gptHeaderPatched hb crcE) 88 4
      = segment (putLE32 hb 88 crcE) 88 4 := by
    rw [gptHeaderPatched]
    exact segment_splice_right (by simp [hput] <;> omega) (by simp <;> omega)
  have h4 := @getLE_splice_self hb 88 crcE (by omega)
  rw [getLE] at h4
  rw [getLE, h1, h2, h3, h4, Nat.mod_eq_of_lt hc]


theorem segment_splice_disj {d src : List Nat} {off off2 len2 : Nat}
    (hd : off + src.length ≤ d.length)
    (h : off2 + len2 ≤ off ∨ off + src.length ≤ off2) :
    segment (splice d off src) off2 len2 = segment d off2 len2 := by
  cases h with
  | inl h => exact segment_splice_left (by omega) h
  | inr h => exact segment_splice_right hd h

/-! ### Soundness facts about the slot scans -/

theorem gptCreateScanReq_parses {esize : Nat} {table : List Nat} {target : Nat} :
    ∀ {n i partCount slot}, gptCreateScanReq esize table target i n partCount = some slot →
      ∃ p, parseGptPartition (segment table (slot * esize) esize) = some p := by
  intro n
  induction n with
  | zero => intro i partCount slot h; exact absurd h (by simp [gptCreateScanReq])
  | succ n ih =>
    intro i partCount slot h
    rw [gptCreateScanReq] at h
    split at h
    · exact ih h
    · rename_i p hp
      split at h
      · split at h
        · injection h with h
          exact h ▸ ⟨p, hp⟩
        · exact ih h
      · exact ih h

theorem gptCreateScanEmpty_parses {esize : Nat} {table : List Nat} :
    ∀ {n i slot}, gptCreateScanEmpty esize table i n = some slot →
      ∃ p, parseGptPartition (segment table (slot * esize) esize) = some p := by
  intro n
  induction n with
  | zero => intro i slot h; exact absurd h (by simp [gptCreateScanEmpty])
  | succ n ih =>
    intro i slot h
    rw [gptCreateScanEmpty] at h
    split at h
    · exact ih h
    · rename_i p hp
      split at h
      · injection h with h
        exact h ▸ ⟨p, hp⟩
      · exact ih h

theorem findGPTSlot_parses {esize num : Nat} {table : List Nat} {req : Int} {slot : Nat}
    (h : findGPTSlot esize num table req = some slot) :
    ∃ p, parseGptPartition (segment table (slot * esize) esize) = some p := by
  unfold findGPTSlot at h
  split at h
  · split at h
    · rename_i i hreq
      injection h with h
      exact h ▸ gptCreateScanReq_parses hreq
    · exact gptCreateScanEmpty_parses h
  · exact gptCreateScanEmpty_parses h

theorem gptDeleteScan_parses {esize : Nat} {table : List Nat} {target : Int} :
    ∀ {n i partID slot}, gptDeleteScan esize table target i n partID = some slot →
      ∃ p, parseGptPartition (segment table (slot * esize) esize) = some p := by
  intro n
  induction n with
  | zero => intro i partID slot h; exact absurd h (by simp [gptDeleteScan])
  | succ n ih =>
    intro i partID slot h
    rw [gptDeleteScan] at h
    split at h
    · exact ih h
    · rename_i p hp
      split at h
      · exact ih h
      · split at h
        · injection h with h
          exact h ▸ ⟨p, hp⟩
        · exact ih h

theorem gptDeleteScan_lt {esize : Nat} {table : List Nat} {target : Int} :
    ∀ {n i partID slot}, gptDeleteScan esize table target i n partID = some slot →
      slot < i + n := by
  intro n
  induction n with
  | zero => intro i partID slot h; exact absurd h (by simp [gptDeleteScan])
  | succ n ih =>
    intro i partID slot h
    rw [gptDeleteScan] at h
    split at h
    · have := ih h
      omega
    · split at h
      · have := ih h
        omega
      · split at h
        · injection h with h
          omega
        · have := ih h
          omega

theorem parses_imp_bounds {table : List Nat} {slot esize : Nat}
    (h : ∃ p, parseGptPartition (segment table (slot * esize) esize) = some p) :
    128 ≤ esize ∧ slot * esize + 128 ≤ table.length := by
  obtain ⟨p, hp⟩ := h
  unfold parseGptPartition at hp
  split at hp
  · exact absurd hp (by simp)
  · rename_i hlen
    have hseg : (segment table (slot * esize) esize).length
        = min esize (table.length - slot * esize) := by
      simp [segment]
    omega

theorem encodeGptPartition_length (p : gptPartition) : (encodeGptPartition p).length = 128 := by
  simp [encodeGptPartition, fixBytes_length, putLEbytes_length]


/-- After a successful `writeGPTTable` on a disk with sane geometry, the
mutated disk satisfies the CRC invariant. -/
theorem writeGPTTable_crcOK {d d' : Disk} {table1 : List Nat}
    (hrun : writeGPTTable d (gptPrimaryHeader d) table1 = Except.ok d')
    (hT : table1.length = gptTableLen d)
    (hgeom : gptGeomOK d) : gptCrcOK d d' := by
  obtain ⟨h92p, h512p, h92b, h512b, D12, D13, D14, D23, D24, D34⟩ := hgeom
  unfold regionsDisjoint at D12 D13 D14 D23 D24 D34
  unfold writeGPTTable at hrun
  split at hrun
  · exact absurd hrun (by simp)
  rename_i hb0 hr1
  split at hrun
  · exact absurd hrun (by simp)
  rename_i hg1
  split at hrun
  · exact absurd hrun (by simp)
  rename_i d1 hw1
  split at hrun
  · exact absurd hrun (by simp)
  rename_i d2 hw2
  split at hrun
  · exact absurd hrun (by simp)
  rename_i bb0 hr2
  split at hrun
  · exact absurd hrun (by simp)
  rename_i hg2
  split at hrun
  · exact absurd hrun (by simp)
  rename_i d3 hw3
  split at hrun
  · exact absurd hrun (by simp)
  rename_i d4 hw4
  injection hrun with hd'
  subst hd'
  obtain ⟨hr1b, hb0eq⟩ := readAt_eq_some hr1
  obtain ⟨hw1b, hd1⟩ := writeAt_eq_some hw1
  obtain ⟨hw2b, hd2⟩ := writeAt_eq_some hw2
  obtain ⟨hr2b, hbb0⟩ := readAt_eq_some hr2
  obtain ⟨hw3b, hd3⟩ := writeAt_eq_some hw3
  obtain ⟨hw4b, hd4⟩ := writeAt_eq_some hw4
  have hb0len : hb0.length = 512 := by
    rw [hb0eq]
    exact segment_length (by omega)
  have hwplen : ((gptHeaderFinal hb0 (gptPrimaryHeader d).HeaderSize
      (crc32ChecksumIEEE table1)).take (gptPrimaryHeader d).HeaderSize).length
      = (gptPrimaryHeader d).HeaderSize :=
    gptHeaderFinal_take_length hb0len h512p
  have hbb0' : bb0 = segment d ((gptPrimaryHeader d).BackupLBA * 512) 512 := by
    rw [hbb0, hd2, segment_splice_disj hw2b (by rw [hwplen]; omega),
      hd1, segment_splice_disj hw1b (by rw [hT]; omega)]
  have hB : parseGptHeader bb0 = gptBackupHeader d := by
    rw [hbb0']
    rfl
  rw [hB] at hg2 hw3b hd3 hw4b hd4
  have hbb0len : bb0.length = 512 := by
    rw [hbb0]
    exact segment_length (by omega)
  have hwblen : ((gptHeaderFinal bb0 (gptBackupHeader d).HeaderSize
      (crc32ChecksumIEEE table1)).take (gptBackupHeader d).HeaderSize).length
      = (gptBackupHeader d).HeaderSize :=
    gptHeaderFinal_take_length hbb0len h512b
  have hEp : segment d4 ((gptPrimaryHeader d).PartitionEntryLBA * 512) (gptTableLen d)
      = table1 := by
    rw [hd4, segment_splice_disj hw4b (by rw [hwblen]; omega),
      hd3, segment_splice_disj hw3b (by rw [hT]; omega),
      hd2, segment_splice_disj hw2b (by rw [hwplen]; omega), hd1]
    have h := segment_splice_same hw1b
    rw [hT] at h
    exact h
  have hEb : segment d4 ((gptBackupHeader d).PartitionEntryLBA * 512) (gptTableLen d)
      = table1 := by
    rw [hd4, segment_splice_disj hw4b (by rw [hwblen]; omega), hd3]
    have h := segment_splice_same hw3b
    rw [hT] at h
    exact h
  have hHp : segment d4 512 (gptPrimaryHeader d).HeaderSize
      = (gptHeaderFinal hb0 (gptPrimaryHeader d).HeaderSize
          (crc32ChecksumIEEE table1)).take (gptPrimaryHeader d).HeaderSize := by
    rw [hd4, segment_splice_disj hw4b (by rw [hwblen]; omega),
      hd3, segment_splice_disj hw3b (by rw [hT]; omega), hd2]
    have h := segment_splice_same hw2b
    rw [hwplen] at h
    exact h
  have hHb : segment d4 ((gptPrimaryHeader d).BackupLBA * 512) (gptBackupHeader d).HeaderSize
      = (gptHeaderFinal bb0 (gptBackupHeader d).HeaderSize
          (crc32ChecksumIEEE table1)).take (gptBackupHeader d).HeaderSize := by
    rw [hd4]
    have h := segment_splice_same hw4b
    rw [hwblen] at h
    exact h
  unfold gptCrcOK
  refine ⟨hEp.trans hEb.symm, ?_, ?_, ?_, ?_⟩
  · rw [hHp]
    exact gptHeaderFinal_crc_self hb0len (by omega) h512p
  · rw [hHp, hEp]
    exact gptHeaderFinal_entries_field hb0len h92p h512p (crc32ChecksumIEEE_lt _)
  · rw [hHb]
    exact gptHeaderFinal_crc_self hbb0len (by omega) h512b
  · rw [hHb, hEb]
    exact gptHeaderFinal_entries_field hbb0len h92b h512b (crc32ChecksumIEEE_lt _)


/-- C1 (corrected): after every successful GPT mutation (create or
delete) on a disk with sane geometry — both stored header sizes between
the 92-byte struct size and 512, and the four written byte regions
(primary entries, primary header, backup entries, backup header sector)
pairwise disjoint — the primary and backup locations hold byte-identical
partition-entry arrays, and both written headers satisfy the CRC rules:
the stored header CRC equals CRC32 of the stored header bytes with bytes
[16,20) zeroed, and the stored entries-CRC field equals CRC32 of the
written entry array.  The geometry hypothesis is the correction: without
it the claim is false (see the counterexample, where a header size of 20
leaves the entries-CRC field outside the written header prefix). -/
theorem C1_write_table_crc_invariant (d : Disk) (preview part : PartitionInfo)
    (fields : List FormField) (d' : Disk)
    (hrun : createGPTPartition d preview fields = Except.ok d' ∨
            deleteGPTPartition d part = Except.ok d')
    (hgeom : gptGeomOK d) : gptCrcOK d d' := by
  rcases hrun with hrun | hrun
  · unfold createGPTPartition at hrun
    split at hrun
    · exact absurd hrun (by simp)
    rename_i hb hr1
    split at hrun
    · exact absurd hrun (by simp)
    rename_i table hrt
    split at hrun
    · exact absurd hrun (by simp)
    rename_i slot hslot
    obtain ⟨hr1b, hbeq⟩ := readAt_eq_some hr1
    have hH : parseGptHeader hb = gptPrimaryHeader d := by
      rw [hbeq]
      rfl
    rw [hH] at hrun hrt hslot
    obtain ⟨hrtb, htab⟩ := readAt_eq_some hrt
    have htlen : table.length = gptTableLen d := by
      rw [htab]
      exact segment_length hrtb
    have hb128 := parses_imp_bounds (findGPTSlot_parses hslot)
    exact writeGPTTable_crcOK hrun
      (by
        rw [splice_length (by rw [encodeGptPartition_length]; omega)]
        exact htlen)
      hgeom
  · unfold deleteGPTPartition at hrun
    split at hrun
    · exact absurd hrun (by simp)
    rename_i hb hr1
    split at hrun
    · exact absurd hrun (by simp)
    rename_i table hrt
    split at hrun
    · exact absurd hrun (by simp)
    rename_i i hscan
    obtain ⟨hr1b, hbeq⟩ := readAt_eq_some hr1
    have hH : parseGptHeader hb = gptPrimaryHeader d := by
      rw [hbeq]
      rfl
    rw [hH] at hrun hrt hscan
    obtain ⟨hrtb, htab⟩ := readAt_eq_some hrt
    have htlen : table.length = gptTableLen d := by
      rw [htab]
      exact segment_length hrtb
    have hi : i < 0 + (gptPrimaryHeader d).NumPartEntries := gptDeleteScan_lt hscan
    have h3 : (i + 1) * (gptPrimaryHeader d).PartEntrySize
        = i * (gptPrimaryHeader d).PartEntrySize + (gptPrimaryHeader d).PartEntrySize := by
      ring
    have h2 : (i + 1) * (gptPrimaryHeader d).PartEntrySize
        ≤ (gptPrimaryHeader d).NumPartEntries * (gptPrimaryHeader d).PartEntrySize :=
      Nat.mul_le_mul_right _ (by omega)
    exact writeGPTTable_crcOK hrun
      (by
        rw [splice_length
          (by
            rw [htlen]
            unfold gptTableLen
            simp
            omega)]
        exact htlen)
      hgeom


/-! ### Facts about the EBR chain walk -/

/-- The walk decides to stop exactly on an empty or non-extended second
entry. -/
theorem ebrNext_eq_none_iff (baseLBA : Nat) (e2 : mbrPartition) :
    ebrNext baseLBA e2 = none ↔
      (e2.Type' = 0 ∨ e2.Sectors = 0 ∨ isExtendedType e2.Type' = false) := by
  unfold ebrNext
  split
  · rename_i h
    simp at h
    simp
    tauto
  · rename_i h
    simp at h
    split
    · rename_i h2
      simp at h2
      simp [h, h2]
    · rename_i h2
      simp at h2
      simp [h, h2]

/-- Each loop iteration records exactly one visited LBA, so the visited
list grows by at most the fuel. -/
theorem readEBRChainAux_visited_le (d : Disk) (sizeBytes : Int) (sectorSize baseLBA : Nat) :
    ∀ (fuel cur : Nat) (acc : List mbrPartition) (visited : List Nat),
      ((readEBRChainAux d sizeBytes sectorSize baseLBA fuel cur acc visited).2).length
        ≤ visited.length + fuel := by
  intro fuel
  induction fuel with
  | zero =>
    intro cur acc visited
    simp [readEBRChainAux]
  | succ fuel ih =>
    intro cur acc visited
    rw [readEBRChainAux]
    split
    · simp
    · split
      · simp
      · simp
      · rename_i newParts nxt heq
        have h := ih nxt (acc ++ newParts) (visited ++ [cur])
        simp at h ⊢
        omega

/-! ### Membership in the reader scan, and agreement with delete -/

theorem gptScan_mem {esize : Nat} {table : List Nat} :
    ∀ {n i j : Nat} {p : gptPartition},
      ((j, p) ∈ gptScan esize table i n ↔
        (i ≤ j ∧ j < i + n ∧
         parseGptPartition (segment table (j * esize) esize) = some p ∧
         isAllZero p.TypeGUID = false ∧ p.FirstLBA ≠ 0)) := by
  intro n
  induction n with
  | zero =>
    intro i j p
    simp [gptScan]
    omega
  | succ n ih =>
    intro i j p
    rw [gptScan]
    split
    · rename_i hp
      rw [ih]
      constructor
      · rintro ⟨h1, h2, h3, h4, h5⟩
        exact ⟨by omega, by omega, h3, h4, h5⟩
      · rintro ⟨h1, h2, h3, h4, h5⟩
        refine ⟨?_, by omega, h3, h4, h5⟩
        rcases eq_or_lt_of_le h1 with heq | hlt
        · rw [← heq] at h3
          rw [hp] at h3
          exact absurd h3 (by simp)
        · omega
    · rename_i p0 hp0
      split
      · rename_i hemp
        simp at hemp
        rw [ih]
        constructor
        · rintro ⟨h1, h2, h3, h4, h5⟩
          exact ⟨by omega, by omega, h3, h4, h5⟩
        · rintro ⟨h1, h2, h3, h4, h5⟩
          refine ⟨?_, by omega, h3, h4, h5⟩
          rcases eq_or_lt_of_le h1 with heq | hlt
          · rw [← heq] at h3
            rw [hp0] at h3
            injection h3 with h3
            rw [← h3] at h4 h5
            rcases hemp with hemp | hemp
            · rw [hemp] at h4
              exact absurd h4 (by simp)
            · exact absurd hemp h5
          · omega
      · rename_i hemp
        simp only [Bool.or_eq_true, not_or] at hemp
        simp only [List.mem_cons]
        rw [ih]
        constructor
        · rintro (heq | ⟨h1, h2, h3, h4, h5⟩)
          · injection heq with hj hp'
            subst hj
            subst hp'
            refine ⟨le_refl _, by omega, hp0, ?_, ?_⟩
            · simpa using hemp.1
            · simpa using hemp.2
          · exact ⟨by omega, by omega, h3, h4, h5⟩
        · rintro ⟨h1, h2, h3, h4, h5⟩
          rcases eq_or_lt_of_le h1 with heq | hlt
          · left
            rw [← heq] at h3 ⊢
            rw [hp0] at h3
            injection h3 with h3
            rw [h3]
          · right
            exact ⟨by omega, by omega, h3, h4, h5⟩

theorem gptDeleteScan_eq_reader {esize : Nat} {table : List Nat} {target : Int} :
    ∀ {n i : Nat} {partID : Int}, partID < target →
      gptDeleteScan esize table target i n partID
        = ((gptScan esize table i n).get? ((target - partID).toNat - 1)).map Prod.fst := by
  intro n
  induction n with
  | zero =>
    intro i partID h
    simp [gptDeleteScan, gptScan]
  | succ n ih =>
    intro i partID h
    cases hp : parseGptPartition (segment table (i * esize) esize) with
    | none =>
      rw [gptDeleteScan, gptScan]
      simp only [hp]
      exact ih h
    | some p0 =>
      by_cases hemp : (isAllZero p0.TypeGUID || p0.FirstLBA == 0) = true
      · rw [gptDeleteScan, gptScan]
        simp only [hp, hemp, if_pos]
        exact ih h
      · by_cases htgt : partID + 1 = target
        · rw [gptDeleteScan, gptScan]
          simp only [hp, hemp, htgt, if_neg, if_pos]
          have h0 : (target - partID).toNat - 1 = 0 := by omega
          simp [h0]
        · rw [gptDeleteScan, gptScan, hp]
          dsimp only
          rw [if_neg hemp, if_neg hemp, if_neg htgt]
          have hk : (target - partID).toNat - 1 = ((target - (partID + 1)).toNat - 1) + 1 := by
            omega
          rw [hk, List.get?_cons_succ]
          exact ih (by omega)

set_option maxHeartbeats 4000000 in
/-- Every entry of the CRC table equals eight polynomial-division rounds
of its index: the table is the standard IEEE CRC-32 table. -/
theorem crc32Table_spec : ∀ i, i < 256 → crc32Table.getD i 0 = crc32Bits 8 i := by decide


/-! ### The claims -/

/-- C1 instantiated: deleting the single partition of the 2560-byte
c1Disk succeeds and the mutated disk satisfies the full CRC invariant. -/
theorem C1_write_table_crc_invariant_witness : gptCrcOK c1Disk c1Result :=
  C1_write_table_crc_invariant c1Disk default c1Part [] c1Result (Or.inr rfl) (by decide)

/-- C1 as literally claimed — for every successful mutation, with no
geometry proviso — is false: on c1cxDisk, whose primary header declares
HeaderSize 20, the delete succeeds, but the mutated disk's primary
entries-CRC field (bytes [600,604), offset 88 of the header sector)
differs from the CRC32 of the entry array it wrote at bytes
[1024,1152). -/
theorem C1_write_table_crc_counterexample :
    deleteGPTPartition c1cxDisk c1Part = Except.ok c1cxResult ∧
    getLE (segment c1cxResult 512 512) 88 4
      ≠ crc32ChecksumIEEE (segment c1cxResult 1024 128) :=
  ⟨rfl, by decide⟩

/-- C2 is a code bug: createGPTPartition's requested-number scan
(src/unnamed/part_003 lines 85-143) counts non-empty entries and returns
the slot at which the count reaches `requested - 1` without testing that
slot for emptiness, despite the comment "check if requested partition
number slot is available".  Concretely: slot 0 of c2Table is non-empty
(non-zero type GUID, FirstLBA 2048), yet a create requesting number 2
selects slot 0 and the successful run overwrites slot 0's entry on
disk. -/
theorem C2_create_overwrites_nonempty_slot :
    findGPTSlot 128 2 c2Table 2 = some 0 ∧
    isAllZero (segment c2Table 0 16) = false ∧
    getLE c2Table 32 8 ≠ 0 ∧
    createGPTPartition c2Disk c2Preview c2Fields = Except.ok c2Result ∧
    segment c2Result 1024 16 ≠ segment c2Disk 1024 16 :=
  ⟨by decide, by decide, by decide, rfl, by decide⟩

/-- C3's claimed behaviour is false: slot 1 of c3Disk is occupied
(sector count 100), yet a create explicitly requesting slot 1 does not
fail — it silently falls back and writes the new 50-sector entry into
slot 2 (index 1). -/
theorem C3_requested_slot_counterexample :
    ((parseMbrStruct (segment c3Disk 0 512)).Partitions.getD 0 mbrZero).Sectors = 100 ∧
    createMBRPartition c3Disk c3Preview c3Fields false = Except.ok c3Result ∧
    ((parseMbrStruct (segment c3Result 0 512)).Partitions.getD 1 mbrZero).Sectors = 50 ∧
    ((parseMbrStruct (segment c3Result 0 512)).Partitions.getD 1 mbrZero).FirstSector = 4096 :=
  ⟨by decide, rfl, by decide, by decide⟩

/-- C3 (corrected): when the explicitly requested MBR slot (number in
1..4) is occupied — its sector count is non-zero — createMBRPartition
does not fail; its slot selection silently falls back to the first slot
with a zero sector count.  The [1,4] range check on the number does
exist, but in the TUI form validation step, which accepts exactly
1 ≤ n ≤ 4. -/
theorem C3_requested_slot_fallback :
    (∀ (parts : List mbrPartition) (r : Int), 1 ≤ r → r ≤ 4 →
        (parts.getD (r - 1).toNat mbrZero).Sectors ≠ 0 →
        findMBRSlot parts r
          = (List.range 4).find? (fun i => (parts.getD i mbrZero).Sectors == 0)) ∧
    (∀ n : Int, validateMBRPartitionNumber n = true ↔ 1 ≤ n ∧ n ≤ 4) := by
  constructor
  · intro parts r h1 h4 hocc
    unfold findMBRSlot
    rw [if_pos (show 0 < r ∧ r ≤ 4 by omega), if_neg hocc]
  · intro n
    unfold validateMBRPartitionNumber
    split
    · rename_i h
      simp
      omega
    · rename_i h
      simp
      omega

/-- C3's fallback instantiated: requesting the occupied slot 1 of
c3wParts resolves to the first-empty-slot scan. -/
theorem C3_requested_slot_fallback_witness :
    findMBRSlot c3wParts 1
      = (List.range 4).find? (fun i => (c3wParts.getD i mbrZero).Sectors == 0) :=
  C3_requested_slot_fallback.1 c3wParts 1 (by decide) (by decide) (by decide)

/-- C4 (confirmed): against a gap whose end is known (a positive last
LBA, as for every real free-space gap), the create-form bounds
validation accepts exactly when the requested start is at or after the
gap's first LBA and the requested end is at or before the gap's last
LBA; in particular a start one sector before the gap is rejected and a
start exactly at the gap's first LBA (with the end inside) passes.  The
check is a pure function of the two records, so it runs before any disk
write. -/
theorem C4_create_bounds_validation (preview gap : PartitionInfo)
    (hgap : 0 < gap.LastLBA) :
    validatePartitionBounds preview gap = Except.ok () ↔
      (gap.FirstLBA ≤ preview.FirstLBA ∧ preview.LastLBA ≤ gap.LastLBA) := by
  unfold validatePartitionBounds
  split
  · rename_i h
    simp
    omega
  · rename_i h
    split
    · rename_i h2
      simp
      omega
    · rename_i h2
      simp
      omega

/-- C4 instantiated: a request spanning 10..50 against the gap 10..100
is accepted iff it lies within the gap's bounds. -/
theorem C4_create_bounds_validation_witness :
    validatePartitionBounds c4Preview c4Gap = Except.ok () ↔
      (c4Gap.FirstLBA ≤ c4Preview.FirstLBA ∧ c4Preview.LastLBA ≤ c4Gap.LastLBA) :=
  C4_create_bounds_validation c4Preview c4Gap (by decide)

/-- C5 is a code bug: generateGUID (src/unnamed/part_003) returns a
hard-coded constant byte sequence — the source comments "in production,
this should use proper GUID generation" — so the UniqueGUID of every
entry built by createGPTPartition is the same 16 bytes 00..0F: two
create calls always produce identical "unique" GUIDs. -/
theorem C5_unique_guid_constant :
    (∀ (p1 p2 : PartitionInfo) (f1 f2 : List FormField),
        (gptNewPartition p1 f1).UniqueGUID = (gptNewPartition p2 f2).UniqueGUID) ∧
    generateGUID = [0x00, 0x01, 0x02, 0x03, 0x04, 0x05, 0x06, 0x07,
                    0x08, 0x09, 0x0A, 0x0B, 0x0C, 0x0D, 0x0E, 0x0F] :=
  ⟨fun _ _ _ _ => rfl, rfl⟩

/-- C6 (corrected): per visited EBR sector, a first entry with non-zero
type and sectors yields a logical partition with absolute start
`current_ebr_lba + entry.first_sector` — but only through a `uint32`
cast and, when the disk size is known (positive), only if both the start
and the end lie within `disk_size / sector_size`; an out-of-bounds entry
yields nothing (the claim's unconditional "yields" is the correction,
see the counterexample).  The second entry, when it is of an extended
type with non-zero sectors, sends the walk to absolute LBA
`base_lba + entry.first_sector`, relative to the original extended
partition's base. -/
theorem C6_ebr_addressing (sizeBytes : Int) (sectorSize baseLBA cur : Nat)
    (buf : List Nat) (parts : List mbrPartition) (nxt : Option Nat)
    (hstep : ebrProcessSector sizeBytes sectorSize baseLBA cur buf
        = Except.ok (parts, nxt)) :
    ((parseMBREntryFromBytes (segment buf 446 16)).Type' ≠ 0 →
     (parseMBREntryFromBytes (segment buf 446 16)).Sectors ≠ 0 →
     (sizeBytes ≤ 0 ∨
       (cur + (parseMBREntryFromBytes (segment buf 446 16)).FirstSector
           ≤ sizeBytes.toNat / sectorSize ∧
        cur + (parseMBREntryFromBytes (segment buf 446 16)).FirstSector
            + (parseMBREntryFromBytes (segment buf 446 16)).Sectors - 1
           ≤ sizeBytes.toNat / sectorSize)) →
     parts = [{ Status := (parseMBREntryFromBytes (segment buf 446 16)).Status
                Type' := (parseMBREntryFromBytes (segment buf 446 16)).Type'
                FirstSector :=
                  (cur + (parseMBREntryFromBytes (segment buf 446 16)).FirstSector) % 2 ^ 32
                Sectors := (parseMBREntryFromBytes (segment buf 446 16)).Sectors % 2 ^ 32 }]) ∧
    (∀ n, nxt = some n →
      (n = baseLBA + (parseMBREntryFromBytes (segment buf 462 16)).FirstSector ∧
       isExtendedType (parseMBREntryFromBytes (segment buf 462 16)).Type' = true ∧
       (parseMBREntryFromBytes (segment buf 462 16)).Sectors ≠ 0)) := by
  unfold ebrProcessSector at hstep
  split at hstep
  · exact absurd hstep (by simp)
  · rename_i hsig
    injection hstep with hpair
    rw [Prod.mk.injEq] at hpair
    obtain ⟨hy, hn⟩ := hpair
    constructor
    · intro hT hS hbound
      rw [← hy]
      unfold ebrYield
      rw [if_pos (by simp [hT, hS])]
      rcases hbound with hb | hb
      · rw [if_neg (show ¬sizeBytes > 0 by omega)]
      · by_cases hsz : sizeBytes > 0
        · rw [if_pos hsz, if_pos hb]
        · rw [if_neg hsz]
    · intro n hn2
      rw [← hn] at hn2
      unfold ebrNext at hn2
      split at hn2
      · exact absurd hn2 (by simp)
      · rename_i hA
        split at hn2
        · exact absurd hn2 (by simp)
        · rename_i hB
          injection hn2 with hn2
          simp at hA hB
          exact ⟨hn2.symm, hB, hA.2⟩

/-- C6 instantiated on c6wBuf at current EBR LBA 2: the run succeeds,
the yielded partition starts at absolute LBA 5 = 2 + 3, and the next EBR
is at 9 = base 2 + 7 per the extended second entry. -/
theorem C6_ebr_addressing_witness :
    ebrProcessSector 5120 512 2 2 c6wBuf = Except.ok (c6wParts, some 9) ∧
    c6wParts
      = [{ Status := (parseMBREntryFromBytes (segment c6wBuf 446 16)).Status
           Type' := (parseMBREntryFromBytes (segment c6wBuf 446 16)).Type'
           FirstSector :=
             (2 + (parseMBREntryFromBytes (segment c6wBuf 446 16)).FirstSector) % 2 ^ 32
           Sectors := (parseMBREntryFromBytes (segment c6wBuf 446 16)).Sectors % 2 ^ 32 }] ∧
    (9 : Nat) = 2 + (parseMBREntryFromBytes (segment c6wBuf 462 16)).FirstSector ∧
    isExtendedType (parseMBREntryFromBytes (segment c6wBuf 462 16)).Type' = true ∧
    (parseMBREntryFromBytes (segment c6wBuf 462 16)).Sectors ≠ 0 := by
  have h := C6_ebr_addressing 5120 512 2 2 c6wBuf c6wParts (some 9) rfl
  have h2 := h.2 9 rfl
  exact ⟨rfl, h.1 (by decide) (by decide) (Or.inr (by decide)), h2.1, h2.2.1, h2.2.2⟩

/-- C6 as literally claimed is false on an out-of-bounds entry: walking
the chain of c6cxDisk from base LBA 2 with a 5120-byte disk size
succeeds but yields no logical partition at all, although the EBR's
first entry has type 0x83 and 100 sectors (its absolute start 62 exceeds
5120/512 = 10, so the walk silently drops it). -/
theorem C6_ebr_addressing_counterexample :
    readEBRChain c6cxDisk 5120 512 2 = Except.ok [] ∧
    (parseMBREntryFromBytes (segment c6cxBuf 446 16)).Type' = 0x83 ∧
    (parseMBREntryFromBytes (segment c6cxBuf 446 16)).Sectors = 100 :=
  ⟨rfl, by decide, by decide⟩

/-- C7 (confirmed): the EBR walk visits at most 128 sectors on every
disk; its stop test fires exactly on an empty or non-extended second
entry; and on the self-pointing cycle disk c7CycleDisk it visits exactly
the 128-hop bound and still returns normally. -/
theorem C7_ebr_chain_bounded :
    (∀ (d : Disk) (sizeBytes : Int) (sectorSize baseLBA : Nat),
        (readEBRChainVisited d sizeBytes sectorSize baseLBA).length ≤ 128) ∧
    (∀ (baseLBA : Nat) (e2 : mbrPartition),
        ebrNext baseLBA e2 = none ↔
          (e2.Type' = 0 ∨ e2.Sectors = 0 ∨ isExtendedType e2.Type' = false)) ∧
    (readEBRChainVisited c7CycleDisk 0 512 0).length = 128 ∧
    readEBRChain c7CycleDisk 0 512 0 = Except.ok [] := by
  refine ⟨?_, ebrNext_eq_none_iff, by decide, rfl⟩
  intro d sizeBytes sectorSize baseLBA
  simpa [readEBRChainVisited] using
    readEBRChainAux_visited_le d sizeBytes sectorSize baseLBA 128 baseLBA [] []

/-- C8 (corrected): the reader's logical list keeps an entry iff its
type GUID is non-zero AND its first LBA is non-zero — not the type GUID
alone, as claimed — and delete's numbering agrees with the reader's
positional numbering over exactly that list. -/
theorem C8_empty_entry_rule :
    (∀ (esize num : Nat) (table : List Nat) (j : Nat) (p : gptPartition),
        ((j, p) ∈ gptReaderList esize num table ↔
          (j < num ∧ parseGptPartition (segment table (j * esize) esize) = some p ∧
           isAllZero p.TypeGUID = false ∧ p.FirstLBA ≠ 0))) ∧
    (∀ (esize num : Nat) (table : List Nat) (target : Int), (0 : Int) < target →
        gptDeleteScan esize table target 0 num 0
          = ((gptReaderList esize num table).get? ((target - 0).toNat - 1)).map Prod.fst) := by
  constructor
  · intro esize num table j p
    unfold gptReaderList
    rw [gptScan_mem]
    constructor
    · rintro ⟨h1, h2, h3, h4, h5⟩
      exact ⟨by omega, h3, h4, h5⟩
    · rintro ⟨h1, h2, h3, h4⟩
      exact ⟨by omega, by omega, h2, h3, h4⟩
  · intro esize num table target ht
    unfold gptReaderList
    exact gptDeleteScan_eq_reader ht

/-- C8's claimed rule (emptiness decided by the type GUID alone) is
false: the single entry of c8Table has a non-zero type GUID (first byte
1) but a zero FirstLBA; the reader's list drops it and delete cannot
number it. -/
theorem C8_empty_entry_counterexample :
    gptReaderList 128 1 c8Table = [] ∧
    isAllZero (segment c8Table 0 16) = false ∧
    getLE c8Table 32 8 = 0 ∧
    gptDeleteScan 128 c8Table 1 0 1 0 = none :=
  ⟨by decide, by decide, by decide, by decide⟩

/-- C8 instantiated on the one-slot table c8wTable holding a non-empty
entry: delete's scan for number 1 agrees with the reader's list. -/
theorem C8_empty_entry_rule_witness :
    gptDeleteScan 128 c8wTable 1 0 1 0
      = ((gptReaderList 128 1 c8wTable).get? (((1 : Int) - 0).toNat - 1)).map Prod.fst :=
  C8_empty_entry_rule.2 128 1 c8wTable 1 (by decide)

/-- C9 (confirmed): a delete request whose caller-supplied record is
flagged mounted fails with the mounted-partition error as the very first
step — the result is this error for every disk whatsoever, so no read
or write of the disk is involved and the table is untouched. -/
theorem C9_delete_mounted_fails (d : Disk) (part : PartitionInfo)
    (h : part.Mounted = true) :
    deletePartition d part
      = Except.error ("cannot delete mounted partition. Please unmount it first: "
          ++ part.MountPoint) := by
  unfold deletePartition
  rw [h]
  simp

/-- C9 instantiated: deleting the mounted c9Part fails with the
mounted-partition error even on the empty disk. -/
theorem C9_delete_mounted_fails_witness :
    deletePartition [] c9Part
      = Except.error ("cannot delete mounted partition. Please unmount it first: "
          ++ c9Part.MountPoint) :=
  C9_delete_mounted_fails [] c9Part rfl

/-- C10 (confirmed): with a known positive disk size, an EBR iteration
whose first entry is set (non-zero type and sectors) but whose computed
absolute start or end exceeds `disk_size / sector_size` returns no error
and yields no partition: the entry is silently omitted and the walk
continues with whatever hop the second entry dictates. -/
theorem C10_ebr_oob_silently_omitted (sizeBytes : Int) (sectorSize baseLBA cur : Nat)
    (buf : List Nat)
    (hlen : 512 ≤ buf.length) (h510 : buf.getD 510 0 = 0x55) (h511 : buf.getD 511 0 = 0xAA)
    (hpos : sizeBytes > 0)
    (hT : (parseMBREntryFromBytes (segment buf 446 16)).Type' ≠ 0)
    (hS : (parseMBREntryFromBytes (segment buf 446 16)).Sectors ≠ 0)
    (hoob : sizeBytes.toNat / sectorSize
              < cur + (parseMBREntryFromBytes (segment buf 446 16)).FirstSector ∨
            sizeBytes.toNat / sectorSize
              < cur + (parseMBREntryFromBytes (segment buf 446 16)).FirstSector
                  + (parseMBREntryFromBytes (segment buf 446 16)).Sectors - 1) :
    ebrProcessSector sizeBytes sectorSize baseLBA cur buf
      = Except.ok ([], ebrNext baseLBA (parseMBREntryFromBytes (segment buf 462 16))) := by
  have hnb : ¬(cur + (parseMBREntryFromBytes (segment buf 446 16)).FirstSector
        ≤ sizeBytes.toNat / sectorSize ∧
      cur + (parseMBREntryFromBytes (segment buf 446 16)).FirstSector
          + (parseMBREntryFromBytes (segment buf 446 16)).Sectors - 1
        ≤ sizeBytes.toNat / sectorSize) := by
    rintro ⟨hA, hB⟩
    rcases hoob with hx | hx
    · exact absurd hA (not_le.mpr hx)
    · exact absurd hB (not_le.mpr hx)
  unfold ebrProcessSector
  rw [if_neg (show ¬(buf.length < 512 ∨ buf.getD 510 0 ≠ 0x55 ∨ buf.getD 511 0 ≠ 0xAA) by
        rintro (hc | hc | hc)
        · omega
        · exact hc h510
        · exact hc h511)]
  have hyld : ebrYield sizeBytes sectorSize cur (parseMBREntryFromBytes (segment buf 446 16))
      = [] := by
    unfold ebrYield
    rw [if_pos (by simp [hT, hS]), if_pos hpos, if_neg hnb]
  rw [hyld]

/-- C10 instantiated on c10Buf (absolute start 62 against the 10-sector
bound of a 5120-byte disk): the iteration succeeds, yields nothing, and
hands the walk the second entry's hop decision. -/
theorem C10_ebr_oob_silently_omitted_witness :
    ebrProcessSector 5120 512 2 2 c10Buf
      = Except.ok ([], ebrNext 2 (parseMBREntryFromBytes (segment c10Buf 462 16))) :=
  C10_ebr_oob_silently_omitted 5120 512 2 2 c10Buf (by decide) (by decide) (by decide)
    (by decide) (by decide) (by decide) (Or.inl (by decide))

end Dsktool
